import Mathlib

/-!
Verification of the SIMCITY simulation core (src/App.tsx, src/constants.tsx,
src/types.ts) against its natural-language specification.

The embedding follows the current source version (the one with exploration,
ports, boats and tile levels: GRID_SIZE = 20, UPGRADE_MULTIPLIER = 1.5).
JavaScript numbers are modelled as `Int` for the integer-valued ledger
counters and as `Rat` for land values and income accumulation; all the
constants involved (multiples of 0.05, powers of 1.5 up to 3, and integer
costs) are exact in both binary floating point and `Rat`, and
`Math.ceil(population * 0.2)` agrees with the rational ceiling of
`population / 5` for every population magnitude below 2^52, so the rational
model matches the floating-point source on all reachable values.

Cosmetic fields that the simulation logic never reads (tile `variant`,
tile coordinates stored inside the tile, `weather`, building `name`,
`description` and `color`, and the string `id` of agents) are omitted from
the embedded records; randomness (weather rerolls, enemy spawn rolls, the
attack-steal roll) is passed in explicitly where a claim needs it.
-/

namespace SimCity

/-- Building kinds, from `src/types.ts` (`BuildingType`), current version
including `Port`. -/
inductive BuildingType
  | None | Road | Residential | Commercial | Industrial | Park | Farm | Defense | Port
deriving DecidableEq, Repr

/-- Terrain resource kinds, from `src/types.ts` (`ResourceType`). -/
inductive ResourceType
  | None | Water | Forest | Stone
deriving DecidableEq, Repr

/-- Game eras, from `src/types.ts` (`Era`). -/
inductive Era
  | Primitive | Industrial | Modern | Future
deriving DecidableEq, Repr

/-- The numeric part of `BuildingConfig` from `src/types.ts`; `name`,
`description` and `color` are cosmetic strings never read by the core. -/
structure BuildingConfig where
  costMoney : Int
  costWood : Int
  costStone : Int
  popGen : Int
  incomeGen : Int
deriving DecidableEq, Repr

/-- `BUILDINGS` from `src/constants.tsx` (current version, with `Port`). -/
def BUILDINGS : BuildingType → BuildingConfig
  | .None        => ⟨0, 0, 0, 0, 0⟩
  | .Road        => ⟨5, 0, 0, 0, 0⟩
  | .Residential => ⟨50, 10, 0, 5, 5⟩
  | .Commercial  => ⟨100, 20, 5, 0, 25⟩
  | .Industrial  => ⟨200, 30, 10, 0, 10⟩
  | .Farm        => ⟨30, 5, 0, 0, 5⟩
  | .Defense     => ⟨150, 20, 40, 0, -5⟩
  | .Park        => ⟨50, 10, 5, 1, 0⟩
  | .Port        => ⟨300, 50, 20, 2, 10⟩

/-- `GRID_SIZE` from `src/constants.tsx` (current version). -/
def GRID_SIZE : Nat := 20

/-- `UPGRADE_MULTIPLIER` from `src/constants.tsx` (1.5, exact in binary). -/
def UPGRADE_MULTIPLIER : ℚ := 3 / 2

/-- `ERA_THRESHOLDS` from `src/constants.tsx` (current version), as
(population threshold, money threshold). -/
def ERA_THRESHOLDS : Era → Int × Int
  | .Primitive  => (0, 0)
  | .Industrial => (50, 3000)
  | .Modern     => (300, 15000)
  | .Future     => (1000, 60000)

/-- One grid cell, from `src/types.ts` (`TileData`); the stored `x`, `y`
coordinates and the visual `variant` seed are omitted (the logic reads a
tile only through grid indexing, never through its stored coordinates). -/
structure TileData where
  buildingType : BuildingType
  resourceType : ResourceType
  landValue : ℚ
  level : Nat
  explored : Bool
deriving DecidableEq, Repr

/-- The grid, indexed by (x, y); the source uses a `GRID_SIZE × GRID_SIZE`
array of arrays accessed as `grid[y][x]`, always behind bounds checks, so a
total function indexed by the same coordinates is an equivalent model. -/
def Grid := Nat → Nat → TileData

/-- `grid[y][x]` of the source. -/
def tileAt (g : Grid) (x y : Nat) : TileData := g x y

/-- Whole-tile replacement (the source's copy-on-write `newGrid[y][x] = ...`). -/
def setTile (g : Grid) (x y : Nat) (t : TileData) : Grid :=
  fun a b => if a = x ∧ b = y then t else g a b

/-- Integer coordinate is inside `[0, GRID_SIZE)` (the source's
`nx >= 0 && nx < GRID_SIZE` checks). -/
def inBounds (n : ℤ) : Prop := 0 ≤ n ∧ n < (GRID_SIZE : ℤ)

instance (n : ℤ) : Decidable (inBounds n) := by unfold inBounds; infer_instance

/-- The 8 neighbor offsets used by `calculateLandValue` in `src/App.tsx`. -/
def neighborOffsets : List (Int × Int) :=
  [(-1, 0), (1, 0), (0, -1), (0, 1), (-1, -1), (-1, 1), (1, -1), (1, 1)]

/-- The body of the `neighbors.forEach` callback in `calculateLandValue`
(`src/App.tsx`): the sequence of conditional additions applied for one
in-bounds neighbor tile. -/
def lvStep (tile : TileData) (value : ℚ) : ℚ :=
  let value := if tile.resourceType = ResourceType.Water then value + 1/10 else value
  let value := if tile.resourceType = ResourceType.Forest then value + 1/20 else value
  let value := if tile.buildingType = BuildingType.Park then value + 1/5 else value
  let value := if tile.buildingType = BuildingType.Industrial then value - 3/20 else value
  let value := if tile.buildingType = BuildingType.Defense then value + 1/20 else value
  if 1 < tile.level then value + (1/10) * ((tile.level : ℚ) - 1) else value

/-- `calculateLandValue` from `src/App.tsx` (current version): fold the 8
neighbor contributions onto 1.0, then clamp to `[0.5, 2.5]`. -/
def calculateLandValue (g : Grid) (x y : Nat) : ℚ :=
  let value := neighborOffsets.foldl (fun value d =>
    let nx : ℤ := (x : ℤ) + d.1
    let ny : ℤ := (y : ℤ) + d.2
    if inBounds nx ∧ inBounds ny then lvStep (tileAt g nx.toNat ny.toNat) value
    else value) 1
  max (1/2) (min (5/2) value)

/-- A single neighbor's additive land-value contribution, written directly
from the spec's wording for claim C9 (+0.1 water, +0.05 forest, +0.2 Park,
−0.15 Industrial, +0.05 Defense, +0.1×(level−1) when level > 1). -/
def lvContribution (t : TileData) : ℚ :=
  (if t.resourceType = ResourceType.Water then 1/10 else 0)
  + (if t.resourceType = ResourceType.Forest then 1/20 else 0)
  + (if t.buildingType = BuildingType.Park then 1/5 else 0)
  + (if t.buildingType = BuildingType.Industrial then -(3/20) else 0)
  + (if t.buildingType = BuildingType.Defense then 1/20 else 0)
  + (if 1 < t.level then (1/10) * ((t.level : ℚ) - 1) else 0)

/-- Spec-side land value for claim C9: start at 1.0, add the contribution of
every in-bounds neighbor, clamp the sum to `[0.5, 2.5]`. -/
def landValueSpec (g : Grid) (x y : Nat) : ℚ :=
  max (1/2) (min (5/2)
    (1 + (neighborOffsets.map (fun d =>
      let nx : ℤ := (x : ℤ) + d.1
      let ny : ℤ := (y : ℤ) + d.2
      if inBounds nx ∧ inBounds ny then lvContribution (tileAt g nx.toNat ny.toNat)
      else 0)).sum))

/-- `CityStats` from `src/types.ts`; `weather` is cosmetic (randomly
rerolled, never read by the simulation) and is omitted. -/
structure CityStats where
  money : Int
  wood : Int
  stone : Int
  food : Int
  population : Int
  day : Int
  era : Era
deriving DecidableEq, Repr

/-- `INITIAL_STATS` from `src/constants.tsx` (current version), together with
`day: 1, era: Primitive` as set in `App`. -/
def INITIAL_STATS : CityStats :=
  { money := 1500, wood := 100, stone := 50, food := 200,
    population := 0, day := 1, era := Era.Primitive }

/-- An explorer boat as spawned by building a Port in `handleTileClick`: the
source record also carries a random string `id` and a `state` flag, neither
of which the claims read; the spawn position is what matters. -/
structure Boat where
  x : Nat
  y : Nat
deriving DecidableEq, Repr

/-- The full state read and written by one `handleTileClick` call. -/
structure ClickState where
  grid : Grid
  stats : CityStats
  boats : List Boat

/-- The neighborhood over which the demolish branch of `handleTileClick`
recomputes land values (the 4-neighborhood plus the tile itself). -/
def plusRange : List (Int × Int) := [(-1, 0), (1, 0), (0, -1), (0, 1), (0, 0)]

/-- The neighborhood over which the build branch of `handleTileClick`
recomputes land values (the full 9-cell block including the tile). -/
def blockRange : List (Int × Int) :=
  [(-1, 0), (1, 0), (0, -1), (0, 1), (0, 0), (-1, -1), (-1, 1), (1, -1), (1, 1)]

/-- The body of the `range.forEach` land-value refresh loops in
`handleTileClick`: for one in-bounds offset, overwrite that tile's
`landValue` with `calculateLandValue` of the grid built so far. -/
def lvRefreshStep (x y : Nat) (g : Grid) (d : Int × Int) : Grid :=
  let nx : ℤ := (x : ℤ) + d.1
  let ny : ℤ := (y : ℤ) + d.2
  if inBounds nx ∧ inBounds ny then
    setTile g nx.toNat ny.toNat
      { tileAt g nx.toNat ny.toNat with landValue := calculateLandValue g nx.toNat ny.toNat }
  else g

/-- The `range.forEach` land-value refresh loops in `handleTileClick`. -/
def recomputeLV (g : Grid) (x y : Nat) (range : List (Int × Int)) : Grid :=
  range.foldl (lvRefreshStep x y) g

/-- `handleTileClick` from `src/App.tsx` (current version), as a pure state
transformer: bounds and fog checks, then the upgrade / demolish / build
branches, in source order. All rejected paths return the input unchanged
(the source only emits a news item there). -/
def handleTileClick (s : ClickState) (tool : BuildingType) (x y : Nat) : ClickState :=
  if x < GRID_SIZE ∧ y < GRID_SIZE then
    let currentTile := tileAt s.grid x y
    if currentTile.explored = false then s
    else
      let buildingConfig := BUILDINGS tool
      if tool ≠ BuildingType.None ∧ currentTile.buildingType = tool then
        -- UPGRADE LOGIC
        if 3 ≤ currentTile.level then s
        else
          let multiplier : ℚ := UPGRADE_MULTIPLIER ^ currentTile.level
          let costMoney : Int := ⌊(buildingConfig.costMoney : ℚ) * multiplier⌋
          let costWood : Int := ⌊(buildingConfig.costWood : ℚ) * multiplier⌋
          let costStone : Int := ⌊(buildingConfig.costStone : ℚ) * multiplier⌋
          if costMoney ≤ s.stats.money ∧ costWood ≤ s.stats.wood ∧ costStone ≤ s.stats.stone then
            { grid := setTile s.grid x y { currentTile with level := currentTile.level + 1 },
              stats := { s.stats with
                money := s.stats.money - costMoney,
                wood := s.stats.wood - costWood,
                stone := s.stats.stone - costStone },
              boats := s.boats }
          else s
      else if tool = BuildingType.None then
        -- Bulldoze
        if currentTile.buildingType ≠ BuildingType.None then
          if 5 ≤ s.stats.money then
            let g1 := setTile s.grid x y
              { currentTile with buildingType := BuildingType.None, level := 1 }
            let g2 := recomputeLV g1 x y plusRange
            let st1 := { s.stats with money := s.stats.money - 5 }
            let st2 := if currentTile.resourceType = ResourceType.Forest then
              { st1 with wood := st1.wood + 10 } else st1
            { grid := g2, stats := st2, boats := s.boats }
          else s
        else s
      else
        -- Build
        if currentTile.buildingType = BuildingType.None then
          if currentTile.resourceType = ResourceType.Water ∧ tool ≠ BuildingType.Port
              ∧ tool ≠ BuildingType.Road then s
          else if tool = BuildingType.Port ∧ currentTile.resourceType ≠ ResourceType.Water then s
          else if buildingConfig.costMoney ≤ s.stats.money ∧ buildingConfig.costWood ≤ s.stats.wood
              ∧ buildingConfig.costStone ≤ s.stats.stone then
            let st1 := { s.stats with
              money := s.stats.money - buildingConfig.costMoney,
              wood := s.stats.wood - buildingConfig.costWood,
              stone := s.stats.stone - buildingConfig.costStone }
            let g1 := setTile s.grid x y { currentTile with buildingType := tool, level := 1 }
            let boats1 := if tool = BuildingType.Port then s.boats ++ [⟨x, y⟩] else s.boats
            let g2 := recomputeLV g1 x y blockRange
            { grid := g2, stats := st1, boats := boats1 }
          else s
        else s
  else s

/-- An explored, empty, resourceless land tile whose stored land value (1.0)
matches `calculateLandValue` on a uniform grid of such tiles. -/
def flatTile : TileData :=
  { buildingType := BuildingType.None, resourceType := ResourceType.None,
    landValue := 1, level := 1, explored := true }

/-- A fully explored, fully empty land grid, used as a concrete test state. -/
def flatGrid : Grid := fun _ _ => flatTile

/-- Spec-side success condition of a build command, for claim C3: coordinates
in bounds, tile explored, no building yet, the water rule, and all three
resource costs affordable. -/
def buildOk (s : ClickState) (tool : BuildingType) (x y : Nat) : Prop :=
  x < GRID_SIZE ∧ y < GRID_SIZE
  ∧ (tileAt s.grid x y).explored = true
  ∧ (tileAt s.grid x y).buildingType = BuildingType.None
  ∧ ((tileAt s.grid x y).resourceType = ResourceType.Water →
      tool = BuildingType.Port ∨ tool = BuildingType.Road)
  ∧ (tool = BuildingType.Port → (tileAt s.grid x y).resourceType = ResourceType.Water)
  ∧ (BUILDINGS tool).costMoney ≤ s.stats.money
  ∧ (BUILDINGS tool).costWood ≤ s.stats.wood
  ∧ (BUILDINGS tool).costStone ≤ s.stats.stone

instance (s : ClickState) (tool : BuildingType) (x y : Nat) :
    Decidable (buildOk s tool x y) := by unfold buildOk; infer_instance

/-- The per-tick accumulators of the economy loop in `App` (`dailyIncome`,
`dailyPopGrowth`, `dailyWood`, `dailyStone`, `dailyFood`, and the
`buildingCounts` record, of which the simulation itself only ever reads the
`Residential` entry — the others feed only the external goal oracle). -/
structure TickTotals where
  dailyIncome : ℚ
  dailyPopGrowth : Int
  dailyWood : Int
  dailyStone : Int
  dailyFood : Int
  residentialCount : Int
deriving DecidableEq, Repr

/-- The body of the `gridRef.current.flat().forEach` sweep of the economy
tick in `src/App.tsx`: one tile's contribution to the accumulators. -/
def tickTileStep (acc : TickTotals) (tile : TileData) : TickTotals :=
  if tile.buildingType = BuildingType.None then acc
  else
    let config := BUILDINGS tile.buildingType
    let levelMult : Int := tile.level
    let income : ℚ := ((config.incomeGen * levelMult : Int) : ℚ) * tile.landValue
    let acc := { acc with
      dailyIncome := acc.dailyIncome + income,
      dailyPopGrowth := acc.dailyPopGrowth + config.popGen * levelMult,
      residentialCount := acc.residentialCount
        + (if tile.buildingType = BuildingType.Residential then 1 else 0) }
    let acc := if tile.buildingType = BuildingType.Farm then
        { acc with dailyFood := acc.dailyFood + 15 * levelMult } else acc
    let acc := if tile.buildingType = BuildingType.Industrial then
        (if tile.resourceType = ResourceType.Forest then
          { acc with dailyWood := acc.dailyWood + 5 * levelMult }
        else if tile.resourceType = ResourceType.Stone then
          { acc with dailyStone := acc.dailyStone + 3 * levelMult }
        else { acc with dailyIncome := acc.dailyIncome + ((5 * levelMult : Int) : ℚ) })
      else acc
    if tile.buildingType = BuildingType.Port then
      { acc with dailyIncome := acc.dailyIncome + ((5 * levelMult : Int) : ℚ) } else acc

/-- The full sweep of the economy tick over `grid.flat()` (row-major:
y outer, x inner, exactly the order of the source's nested arrays). -/
def sweepGrid (g : Grid) : TickTotals :=
  (List.range GRID_SIZE).foldl (fun acc y =>
    (List.range GRID_SIZE).foldl (fun acc x => tickTileStep acc (tileAt g x y)) acc)
    ⟨0, 0, 0, 0, 0, 0⟩

/-- `Math.ceil(prev.population * 0.2)` of the economy tick. The double
nearest to 0.2 is 0.2·(1 + 2⁻⁵⁴…), whose products with integers below 2⁵²
round to the same ceiling as the exact rational, so the rational reading is
faithful. -/
def foodConsumptionOf (population : Int) : Int := ⌈(population : ℚ) * (2/10)⌉

/-- `prev.food + dailyFood - foodConsumption` of the economy tick, before
the zero clamp; the tick's `starving` flag is exactly this being negative. -/
def newFoodRaw (g : Grid) (st : CityStats) : Int :=
  st.food + (sweepGrid g).dailyFood - foodConsumptionOf st.population

/-- The tick's population update: starvation penalty of 5 instead of growth
when starving, then the residential cap `(resCount * 50) * 3`, then the zero
clamp — the three steps of the source in order. -/
def newPopOf (g : Grid) (st : CityStats) : Int :=
  let maxPop := ((sweepGrid g).residentialCount * 50) * 3
  let newPop0 := st.population
    + (if newFoodRaw g st < 0 then -5 else (sweepGrid g).dailyPopGrowth)
  let newPop1 := if maxPop < newPop0 then maxPop else newPop0
  if newPop1 < 0 then 0 else newPop1

/-- The tick's era progression: the chained conditionals of the source,
comparing the updated population and the pre-income money against the next
era's thresholds. -/
def eraNextOf (g : Grid) (st : CityStats) : Era :=
  if st.era = Era.Primitive ∧ (ERA_THRESHOLDS Era.Industrial).1 ≤ newPopOf g st
      ∧ (ERA_THRESHOLDS Era.Industrial).2 ≤ st.money then Era.Industrial
  else if st.era = Era.Industrial ∧ (ERA_THRESHOLDS Era.Modern).1 ≤ newPopOf g st
      ∧ (ERA_THRESHOLDS Era.Modern).2 ≤ st.money then Era.Modern
  else if st.era = Era.Modern ∧ (ERA_THRESHOLDS Era.Future).1 ≤ newPopOf g st
      ∧ (ERA_THRESHOLDS Era.Future).2 ≤ st.money then Era.Future
  else st.era

/-- The `setStats` body of the economy tick in `src/App.tsx` (current
version): food consumption and starvation, population growth and caps, era
progression, and the resource/money credit. The probabilistic weather reroll
and the news/goal side channels are cosmetic and omitted. -/
def economyTick (g : Grid) (st : CityStats) : CityStats :=
  { money := ⌊(st.money : ℚ) + (sweepGrid g).dailyIncome⌋,
    wood := st.wood + (sweepGrid g).dailyWood,
    stone := st.stone + (sweepGrid g).dailyStone,
    food := if newFoodRaw g st < 0 then 0 else newFoodRaw g st,
    population := newPopOf g st,
    day := st.day + 1,
    era := eraNextOf g st }

/-- Rank of an era in the fixed progression order. -/
def eraRank : Era → Nat
  | .Primitive => 0
  | .Industrial => 1
  | .Modern => 2
  | .Future => 3

/-- The next era in the fixed progression order (Future is terminal). -/
def eraSucc : Era → Era
  | .Primitive => .Industrial
  | .Industrial => .Modern
  | .Modern => .Future
  | .Future => .Future

/-- A hostile agent, from `src/types.ts` (`Enemy`); the source's string `id`
(used only to locate the clicked agent) is modelled as a number, and the
unused optional `targetX`/`targetY` fields are omitted. -/
structure Enemy where
  id : Nat
  x : ℚ
  y : ℚ
  hp : Int
  maxHp : Int
  attackCooldown : Int
deriving DecidableEq, Repr

/-- JavaScript `Math.sign`, as used for enemy/boat movement (the source
guards with `dx !== 0 ? Math.sign(dx) : 0`, which is the same function). -/
def jsSign (q : ℚ) : ℚ := if q < 0 then -1 else if 0 < q then 1 else 0

/-- JavaScript `Math.round` (round half toward positive infinity). -/
def jsRound (q : ℚ) : ℤ := ⌊q + 1/2⌋

/-- The per-tile body of the nearest-building scan (the inner loop of the
enemy tick's target search in `src/App.tsx`): a non-empty, non-Road tile
replaces the accumulator when its Manhattan distance to the enemy is
strictly smaller than the best so far. -/
def nearStep (e : Enemy) (g : Grid) (y : Nat) (acc : (Int × Int) × ℚ) (x : Nat) :
    (Int × Int) × ℚ :=
  if (tileAt g x y).buildingType ≠ BuildingType.None
      ∧ (tileAt g x y).buildingType ≠ BuildingType.Road then
    let dist := |e.x - (x : ℚ)| + |e.y - (y : ℚ)|
    if dist < acc.2 then (((x : ℤ), (y : ℤ)), dist) else acc
  else acc

/-- The nearest-building scan of the enemy tick: full row-major grid scan
for non-empty, non-Road tiles, keeping the strictly smallest Manhattan
distance; returns ((targetX, targetY), minDist), initialised to
((-1, -1), 999) exactly as in the source. -/
def findNearestBuilding (g : Grid) (e : Enemy) : (Int × Int) × ℚ :=
  (List.range GRID_SIZE).foldl (fun acc y =>
    (List.range GRID_SIZE).foldl (nearStep e g y) acc) ((-1, -1), 999)

/-- The 3×3 turret-damage block of the enemy tick. -/
def turretRange : List (Int × Int) :=
  [(-1, 0), (1, 0), (0, -1), (0, 1), (0, 0), (-1, -1), (-1, 1), (1, -1), (1, 1)]

/-- One enemy's update in the enemy tick of `src/App.tsx` (movement toward
the nearest building, turret damage, attack-cooldown handling). The result
does not depend on the steal roll, which only gates the `setStats` theft. -/
def stepEnemy (g : Grid) (e : Enemy) : Enemy :=
  let t := findNearestBuilding g e
  if t.1.1 = -1 then e
  else
    let minDist := t.2
    let p := if 1/2 < minDist then
        (e.x + jsSign ((t.1.1 : ℚ) - e.x) * (1/10), e.y + jsSign ((t.1.2 : ℚ) - e.y) * (1/10))
      else (e.x, e.y)
    let gridX := jsRound p.1
    let gridY := jsRound p.2
    let hp := turretRange.foldl (fun hp d =>
      let tx := gridX + d.1
      let ty := gridY + d.2
      if inBounds tx ∧ inBounds ty then
        if (tileAt g tx.toNat ty.toNat).buildingType = BuildingType.Defense then
          hp - 5 * ((tileAt g tx.toNat ty.toNat).level : Int)
        else hp
      else hp) e.hp
    if minDist < 1 ∧ e.attackCooldown ≤ 0 then
      { e with x := p.1, y := p.2, hp := hp, attackCooldown := 5 }
    else
      { e with x := p.1, y := p.2, hp := hp, attackCooldown := max 0 (e.attackCooldown - 1) }

/-- The condition under which the enemy tick enters its attack branch for an
enemy (a target exists, it is within attack range, and the cooldown has
expired); a steal happens when additionally `Math.random() > 0.8`. -/
def enemyAttacks (g : Grid) (e : Enemy) : Prop :=
  (findNearestBuilding g e).1.1 ≠ -1 ∧ (findNearestBuilding g e).2 < 1 ∧ e.attackCooldown ≤ 0

instance (g : Grid) (e : Enemy) : Decidable (enemyAttacks g e) := by
  unfold enemyAttacks; infer_instance

/-- The `setStats` theft of the enemy attack branch. -/
def applySteal (st : CityStats) : CityStats :=
  { st with money := max 0 (st.money - 10), food := max 0 (st.food - 5) }

/-- The movement/damage phase of the enemy tick (`setEnemies`): map each
enemy through `stepEnemy`, apply the theft of every attacking enemy whose
steal roll passed, and drop agents whose hp fell to 0 or below. The source
interleaves the per-enemy `setStats` theft with the map, but an enemy's own
update never reads the stats, so mapping and folding separately is
observationally identical; `rolls` lists the `Math.random() > 0.8` outcomes
in enemy order. The probabilistic spawn phase is not modelled. -/
def enemyTick (g : Grid) (es : List Enemy) (st : CityStats) (rolls : List Bool) :
    List Enemy × CityStats :=
  ((es.map (stepEnemy g)).filter (fun e => 0 < e.hp),
    (es.zip rolls).foldl (fun st p =>
      if enemyAttacks g p.1 ∧ p.2 = true then applySteal st else st) st)

/-- `handleEnemyClick` from `src/App.tsx`: 20 damage to the clicked agent,
then the same hp-filter as the enemy tick. -/
def handleEnemyClick (es : List Enemy) (id : Nat) : List Enemy :=
  (es.map (fun e => if e.id = id then { e with hp := e.hp - 20 } else e)).filter
    (fun e => 0 < e.hp)

/-- The reveal neighborhood of the boat tick (note: the source lists only 7
offsets, omitting (1,-1) and (-1,1)). -/
def revealRange : List (Int × Int) :=
  [(0, 0), (1, 0), (-1, 0), (0, 1), (0, -1), (1, 1), (-1, -1)]

/-- Result of one reveal event of the boat tick: the updated grid and stats,
and the `foundSomething` flag. -/
structure RevealResult where
  grid : Grid
  stats : CityStats
  found : Bool

/-- The body of the `range.forEach` of the reveal event: reveal one offset's
tile if it is in bounds and not yet explored, crediting wood/stone for a
newly revealed resource and raising the `foundSomething` flag. -/
def revealStep (gx gy : ℤ) (acc : Grid × CityStats × Bool) (d : Int × Int) :
    Grid × CityStats × Bool :=
  let tx := gx + d.1
  let ty := gy + d.2
  if inBounds tx ∧ inBounds ty then
    let t := tileAt acc.1 tx.toNat ty.toNat
    if t.explored = false then
      let g1 := setTile acc.1 tx.toNat ty.toNat { t with explored := true }
      if t.resourceType ≠ ResourceType.None ∧ t.resourceType ≠ ResourceType.Water then
        let st1 := if t.resourceType = ResourceType.Forest then
            { acc.2.1 with wood := acc.2.1.wood + 20 } else acc.2.1
        let st2 := if t.resourceType = ResourceType.Stone then
            { st1 with stone := st1.stone + 10 } else st1
        (g1, st2, true)
      else (g1, acc.2.1, acc.2.2)
    else acc
  else acc

/-- The reveal event of the boat tick in `src/App.tsx` (the body of the
`if (Math.abs(dx) < 1.5 && Math.abs(dy) < 1.5)` block): mark every
not-yet-explored tile of `revealRange` around (gx, gy) as explored, award
+20 wood per newly revealed Forest tile and +10 stone per newly revealed
Stone tile, and a single +50 money bonus if any non-water resource tile was
newly revealed. -/
def revealArea (g : Grid) (st : CityStats) (gx gy : ℤ) : RevealResult :=
  let r := revealRange.foldl (revealStep gx gy) (g, st, false)
  { grid := r.1,
    stats := if r.2.2 then { r.2.1 with money := r.2.1.money + 50 } else r.2.1,
    found := r.2.2 }

/-- All five ledger counters of `CityStats` are non-negative. -/
def statsNonneg (st : CityStats) : Prop :=
  0 ≤ st.money ∧ 0 ≤ st.wood ∧ 0 ≤ st.stone ∧ 0 ≤ st.food ∧ 0 ≤ st.population

instance (st : CityStats) : Decidable (statsNonneg st) := by
  unfold statsNonneg; infer_instance

/-- The state after building a Defense tower at (5,5) on the flat grid from
the initial ledger — the first step of the reachable trace refuting money
non-negativity (claim C7). -/
def defenseBuilt : ClickState :=
  handleTileClick ⟨flatGrid, INITIAL_STATS, []⟩ BuildingType.Defense 5 5

/-- Iterated economy ticks over the Defense-tower city of `defenseBuilt`. -/
def defenseCity : Nat → CityStats :=
  fun n => (fun st => economyTick defenseBuilt.grid st)^[n] defenseBuilt.stats

/-- The flat grid with a level-1 Residential at (1,1): the starting state of
the land-value staleness scenario (claim C2). -/
def residentialCity : Grid :=
  setTile flatGrid 1 1 { flatTile with buildingType := BuildingType.Residential }

/-- The flat grid with a level-1 Residential at (2,2): one residential
building, used to drive population growth in the era-advance scenario. -/
def resCity : Grid :=
  setTile flatGrid 2 2 { flatTile with buildingType := BuildingType.Residential }

/-- A ledger sitting exactly at the Industrial-era thresholds (population 50
after growth, money 3000). -/
def eraStats : CityStats :=
  { money := 3000, wood := 0, stone := 0, food := 100,
    population := 50, day := 1, era := Era.Primitive }

/-- The flat grid with a level-1 Defense turret at (0,0). -/
def guardPost : Grid :=
  setTile flatGrid 0 0 { flatTile with buildingType := BuildingType.Defense }

/-- A hostile standing on the turret tile of `guardPost` with 5 hp and an
expired attack cooldown: it dies to turret damage in the next tick. -/
def raider : Enemy :=
  { id := 0, x := 0, y := 0, hp := 5, maxHp := 50, attackCooldown := 0 }

/-- A healthy hostile on the turret tile of `guardPost`: it survives the
turret damage of one tick. -/
def bruiser : Enemy :=
  { id := 2, x := 0, y := 0, hp := 50, maxHp := 50, attackCooldown := 3 }

/-- The flat grid with a level-2 Park at (1,1): a state in which a demolish
click decreases the tile's level. -/
def parkCity : Grid :=
  setTile flatGrid 1 1 { flatTile with buildingType := BuildingType.Park, level := 2 }

/-- The flat grid with a level-3 Park at (2,2): a state for exercising the
max-level upgrade rejection. -/
def parkCity3 : Grid :=
  setTile flatGrid 2 2 { flatTile with buildingType := BuildingType.Park, level := 3 }

/-- Two grids agree on every field that `calculateLandValue` reads
(everything except the stored `landValue` and `explored`). -/
def sameStructure (g g' : Grid) : Prop := ∀ a b,
  (tileAt g a b).buildingType = (tileAt g' a b).buildingType
  ∧ (tileAt g a b).resourceType = (tileAt g' a b).resourceType
  ∧ (tileAt g a b).level = (tileAt g' a b).level

/-- Position (a, b) is one of the in-bounds positions refreshed by a
land-value recomputation loop at (x, y) over `r`. -/
def lvTarget (x y : Nat) (r : List (Int × Int)) (a b : Nat) : Prop :=
  ∃ d ∈ r, inBounds ((x : ℤ) + d.1) ∧ inBounds ((y : ℤ) + d.2)
    ∧ a = ((x : ℤ) + d.1).toNat ∧ b = ((y : ℤ) + d.2).toNat

instance (x y : Nat) (r : List (Int × Int)) (a b : Nat) :
    Decidable (lvTarget x y r a b) := by unfold lvTarget; infer_instance

lemma lvStep_eq_add (t : TileData) (v : ℚ) : lvStep t v = v + lvContribution t := by
  simp only [lvStep, lvContribution]
  split_ifs <;> ring

lemma calculateLandValue_foldl (g : Grid) (x y : Nat) (l : List (Int × Int)) (v : ℚ) :
    l.foldl (fun value (d : Int × Int) =>
      let nx : ℤ := (x : ℤ) + d.1
      let ny : ℤ := (y : ℤ) + d.2
      if inBounds nx ∧ inBounds ny then lvStep (tileAt g nx.toNat ny.toNat) value
      else value) v
    = v + (l.map (fun d =>
        if inBounds ((x : ℤ) + d.1) ∧ inBounds ((y : ℤ) + d.2) then
          lvContribution (tileAt g ((x : ℤ) + d.1).toNat ((y : ℤ) + d.2).toNat) else 0)).sum := by
  induction l generalizing v with
  | nil => simp
  | cons d l ih =>
      rw [List.foldl_cons, List.map_cons, List.sum_cons, ih]
      by_cases h : inBounds ((x : ℤ) + d.1) ∧ inBounds ((y : ℤ) + d.2)
      · simp only [if_pos h, lvStep_eq_add]; ring
      · simp only [if_neg h]; ring

/-- Claim C9: the land-value function is pure in the grid and position: it
starts at 1.0 and, for each of the up-to-8 in-bounds neighbors, adds +0.1 for
water, +0.05 for forest, +0.2 for Park, −0.15 for Industrial, +0.05 for
Defense, and +0.1×(level−1) when the neighbor's level exceeds 1, then clamps
the result to `[0.5, 2.5]`. -/
theorem calculateLandValue_eq_spec (g : Grid) (x y : Nat) :
    calculateLandValue g x y = landValueSpec g x y := by
  unfold calculateLandValue landValueSpec
  rw [calculateLandValue_foldl]

/-- Claim C1: for every click command with a building tool selected (build or
upgrade), either the whole state (ledger, grid, boats) is returned unchanged —
in particular on every rejection, including insufficient money, wood or
stone — or the transaction succeeded, in which case money, wood and stone are
debited by amounts that were checked beforehand and remain non-negative,
while food and population are untouched. -/
theorem click_atomic_nonneg (s : ClickState) (tool : BuildingType) (x y : Nat)
    (htool : tool ≠ BuildingType.None) :
    (handleTileClick s tool x y).grid = s.grid
      ∧ (handleTileClick s tool x y).stats = s.stats
      ∧ (handleTileClick s tool x y).boats = s.boats
    ∨ (0 ≤ (handleTileClick s tool x y).stats.money
      ∧ 0 ≤ (handleTileClick s tool x y).stats.wood
      ∧ 0 ≤ (handleTileClick s tool x y).stats.stone
      ∧ (handleTileClick s tool x y).stats.food = s.stats.food
      ∧ (handleTileClick s tool x y).stats.population = s.stats.population) := by
  simp only [handleTileClick]
  split_ifs
  all_goals first
    | exact Or.inl ⟨rfl, rfl, rfl⟩
    | exact absurd (by assumption) htool
    | (refine Or.inr ⟨?_, ?_, ?_, rfl, rfl⟩ <;> dsimp only <;> omega)

/-- Witness for claim C1 at a concrete input: building a Road on the flat
grid from the initial ledger. -/
theorem click_atomic_nonneg_witness :
    BuildingType.Road ≠ BuildingType.None
    ∧ ((handleTileClick ⟨flatGrid, INITIAL_STATS, []⟩ BuildingType.Road 1 1).grid = flatGrid
      ∧ (handleTileClick ⟨flatGrid, INITIAL_STATS, []⟩ BuildingType.Road 1 1).stats = INITIAL_STATS
      ∧ (handleTileClick ⟨flatGrid, INITIAL_STATS, []⟩ BuildingType.Road 1 1).boats = []
    ∨ (0 ≤ (handleTileClick ⟨flatGrid, INITIAL_STATS, []⟩ BuildingType.Road 1 1).stats.money
      ∧ 0 ≤ (handleTileClick ⟨flatGrid, INITIAL_STATS, []⟩ BuildingType.Road 1 1).stats.wood
      ∧ 0 ≤ (handleTileClick ⟨flatGrid, INITIAL_STATS, []⟩ BuildingType.Road 1 1).stats.stone
      ∧ (handleTileClick ⟨flatGrid, INITIAL_STATS, []⟩ BuildingType.Road 1 1).stats.food
          = INITIAL_STATS.food
      ∧ (handleTileClick ⟨flatGrid, INITIAL_STATS, []⟩ BuildingType.Road 1 1).stats.population
          = INITIAL_STATS.population)) :=
  ⟨by decide, click_atomic_nonneg ⟨flatGrid, INITIAL_STATS, []⟩ BuildingType.Road 1 1 (by decide)⟩

lemma tileAt_setTile (g : Grid) (x y : Nat) (t : TileData) (a b : Nat) :
    tileAt (setTile g x y t) a b = if a = x ∧ b = y then t else tileAt g a b := rfl

lemma recomputeLV_cons (g : Grid) (x y : Nat) (d : Int × Int) (r : List (Int × Int)) :
    recomputeLV g x y (d :: r) = recomputeLV (lvRefreshStep x y g d) x y r := rfl

lemma landValue_update_update (t : TileData) (v w : ℚ) :
    ({ { t with landValue := w } with landValue := v } : TileData)
      = { t with landValue := v } := rfl

lemma tileAt_lvRefreshStep (x y : Nat) (g : Grid) (d : Int × Int) (a b : Nat) :
    tileAt (lvRefreshStep x y g d) a b =
      if inBounds ((x : ℤ) + d.1) ∧ inBounds ((y : ℤ) + d.2)
          ∧ a = ((x : ℤ) + d.1).toNat ∧ b = ((y : ℤ) + d.2).toNat
      then { tileAt g a b with landValue := calculateLandValue g a b }
      else tileAt g a b := by
  unfold lvRefreshStep
  by_cases h : inBounds ((x : ℤ) + d.1) ∧ inBounds ((y : ℤ) + d.2)
  · rw [if_pos h, tileAt_setTile]
    by_cases hab : a = ((x : ℤ) + d.1).toNat ∧ b = ((y : ℤ) + d.2).toNat
    · obtain ⟨ha, hb⟩ := hab
      rw [if_pos ⟨ha, hb⟩, if_pos ⟨h.1, h.2, ha, hb⟩, ha, hb]
    · rw [if_neg hab, if_neg (fun hc => hab ⟨hc.2.2.1, hc.2.2.2⟩)]
  · rw [if_neg h, if_neg (fun hc => h ⟨hc.1, hc.2.1⟩)]

lemma sameStructure_lvRefreshStep (x y : Nat) (g : Grid) (d : Int × Int) :
    sameStructure (lvRefreshStep x y g d) g := by
  intro a b
  rw [tileAt_lvRefreshStep]
  split_ifs with h
  · obtain ⟨-, -, ha, hb⟩ := h
    subst ha; subst hb
    exact ⟨rfl, rfl, rfl⟩
  · exact ⟨rfl, rfl, rfl⟩

lemma lvContribution_congr (t u : TileData) (h1 : t.buildingType = u.buildingType)
    (h2 : t.resourceType = u.resourceType) (h3 : t.level = u.level) :
    lvContribution t = lvContribution u := by
  unfold lvContribution
  rw [h1, h2, h3]

lemma calculateLandValue_congr (g g' : Grid) (h : sameStructure g g') (x y : Nat) :
    calculateLandValue g x y = calculateLandValue g' x y := by
  unfold calculateLandValue
  rw [calculateLandValue_foldl, calculateLandValue_foldl]
  have hm : (neighborOffsets.map (fun d =>
      if inBounds ((x : ℤ) + d.1) ∧ inBounds ((y : ℤ) + d.2) then
        lvContribution (tileAt g ((x : ℤ) + d.1).toNat ((y : ℤ) + d.2).toNat) else 0))
    = (neighborOffsets.map (fun d =>
      if inBounds ((x : ℤ) + d.1) ∧ inBounds ((y : ℤ) + d.2) then
        lvContribution (tileAt g' ((x : ℤ) + d.1).toNat ((y : ℤ) + d.2).toNat) else 0)) := by
    refine List.map_congr_left (fun d _ => ?_)
    split_ifs with hd
    · exact lvContribution_congr _ _ (h _ _).1 (h _ _).2.1 (h _ _).2.2
    · rfl
  rw [hm]

lemma sameStructure_recomputeLV (g : Grid) (x y : Nat) (r : List (Int × Int)) :
    sameStructure (recomputeLV g x y r) g := by
  induction r generalizing g with
  | nil => exact fun a b => ⟨rfl, rfl, rfl⟩
  | cons d r ih =>
      intro a b
      rw [recomputeLV_cons]
      have h1 := ih (lvRefreshStep x y g d) a b
      have h2 := sameStructure_lvRefreshStep x y g d a b
      exact ⟨h1.1.trans h2.1, h1.2.1.trans h2.2.1, h1.2.2.trans h2.2.2⟩

lemma lvTarget_cons (x y : Nat) (d : Int × Int) (r : List (Int × Int)) (a b : Nat) :
    lvTarget x y (d :: r) a b ↔
      (inBounds ((x : ℤ) + d.1) ∧ inBounds ((y : ℤ) + d.2)
        ∧ a = ((x : ℤ) + d.1).toNat ∧ b = ((y : ℤ) + d.2).toNat)
      ∨ lvTarget x y r a b := by
  unfold lvTarget
  simp [List.mem_cons, or_and_right, exists_or]

/-- Pointwise description of a land-value refresh loop: every in-bounds
position covered by the offset list gets `calculateLandValue` of the
starting grid (land values of other tiles are not inputs of the function,
so the in-loop update order is irrelevant); every other tile is untouched. -/
lemma tileAt_recomputeLV (g : Grid) (x y : Nat) (r : List (Int × Int)) (a b : Nat) :
    tileAt (recomputeLV g x y r) a b =
      if lvTarget x y r a b
      then { tileAt g a b with landValue := calculateLandValue g a b }
      else tileAt g a b := by
  induction r generalizing g with
  | nil =>
      rw [if_neg]
      · rfl
      · rintro ⟨d, hd, -⟩
        exact absurd hd (List.not_mem_nil d)
  | cons d r ih =>
      rw [recomputeLV_cons, ih, tileAt_lvRefreshStep]
      have hcalc : calculateLandValue (lvRefreshStep x y g d) a b = calculateLandValue g a b :=
        calculateLandValue_congr _ _ (sameStructure_lvRefreshStep x y g d) a b
      by_cases ht : lvTarget x y r a b
      · rw [if_pos ht, if_pos ((lvTarget_cons x y d r a b).2 (Or.inr ht)), hcalc]
        split_ifs with hd
        · rw [landValue_update_update]
        · rfl
      · rw [if_neg ht]
        by_cases hd : inBounds ((x : ℤ) + d.1) ∧ inBounds ((y : ℤ) + d.2)
            ∧ a = ((x : ℤ) + d.1).toNat ∧ b = ((y : ℤ) + d.2).toNat
        · rw [if_pos hd, if_pos ((lvTarget_cons x y d r a b).2 (Or.inl hd))]
        · rw [if_neg hd, if_neg (fun hc => ((lvTarget_cons x y d r a b).1 hc).elim hd ht)]

lemma level_tileAt_recomputeLV (g : Grid) (x y : Nat) (r : List (Int × Int)) (a b : Nat) :
    (tileAt (recomputeLV g x y r) a b).level = (tileAt g a b).level :=
  (sameStructure_recomputeLV g x y r a b).2.2

lemma click_level_bounds (s : ClickState) (tool : BuildingType) (x y : Nat)
    (hinv : ∀ a b, 1 ≤ (tileAt s.grid a b).level ∧ (tileAt s.grid a b).level ≤ 3) :
    ∀ a b, 1 ≤ (tileAt (handleTileClick s tool x y).grid a b).level
      ∧ (tileAt (handleTileClick s tool x y).grid a b).level ≤ 3 := by
  intro a b
  simp only [handleTileClick]
  split_ifs
  any_goals exact hinv a b
  all_goals dsimp only
  all_goals first
    | (rw [level_tileAt_recomputeLV, tileAt_setTile]
       split_ifs with hab
       · dsimp only; omega
       · exact hinv a b)
    | (rw [tileAt_setTile]
       split_ifs with hab
       · dsimp only; omega
       · exact hinv a b)

lemma click_level_monotone (s : ClickState) (tool : BuildingType) (x y : Nat)
    (htool : tool ≠ BuildingType.None)
    (hempty : ∀ a b, (tileAt s.grid a b).buildingType = BuildingType.None →
      (tileAt s.grid a b).level = 1) :
    ∀ a b, (tileAt s.grid a b).level ≤ (tileAt (handleTileClick s tool x y).grid a b).level := by
  intro a b
  simp only [handleTileClick]
  split_ifs
  any_goals exact Nat.le_refl _
  all_goals dsimp only
  all_goals first
    | (rw [level_tileAt_recomputeLV, tileAt_setTile]
       split_ifs with hab
       · obtain ⟨ha, hb⟩ := hab
         subst ha; subst hb
         dsimp only
         exact Nat.le_of_eq (hempty _ _ (by assumption))
       · exact Nat.le_refl _)
    | (rw [tileAt_setTile]
       split_ifs with hab
       · obtain ⟨ha, hb⟩ := hab
         subst ha; subst hb
         dsimp only
         omega
       · exact Nat.le_refl _)

lemma click_max_level_rejected (s : ClickState) (tool : BuildingType) (x y : Nat)
    (htool : tool ≠ BuildingType.None)
    (hmatch : (tileAt s.grid x y).buildingType = tool)
    (hmax : 3 ≤ (tileAt s.grid x y).level) :
    handleTileClick s tool x y = s := by
  simp only [handleTileClick]
  split_ifs
  any_goals rfl
  all_goals exfalso
  all_goals exact (by assumption : ¬(tool ≠ BuildingType.None
    ∧ (tileAt s.grid x y).buildingType = tool)) ⟨htool, hmatch⟩

/-- Claim C6 (amended): tile levels stay within [1,3] under every click
transaction (build, upgrade or demolish, starting from a grid satisfying
the bounds); under every build or upgrade click (any tool other than the
bulldozer) levels are non-decreasing at every tile, provided empty tiles
sit at level 1 as they do in every reachable state; and an upgrade attempt
on a tile already at level 3 is rejected with no state change. (The
original claim's monotonicity under all operations fails: a demolish resets
the level to 1, see the counterexample.) -/
theorem level_bounds_and_upgrade_monotone (s : ClickState) (tool : BuildingType) (x y : Nat) :
    ((∀ a b, 1 ≤ (tileAt s.grid a b).level ∧ (tileAt s.grid a b).level ≤ 3) →
      ∀ a b, 1 ≤ (tileAt (handleTileClick s tool x y).grid a b).level
        ∧ (tileAt (handleTileClick s tool x y).grid a b).level ≤ 3)
    ∧ (tool ≠ BuildingType.None →
      (∀ a b, (tileAt s.grid a b).buildingType = BuildingType.None →
        (tileAt s.grid a b).level = 1) →
      ∀ a b, (tileAt s.grid a b).level ≤ (tileAt (handleTileClick s tool x y).grid a b).level)
    ∧ (tool ≠ BuildingType.None → (tileAt s.grid x y).buildingType = tool →
      3 ≤ (tileAt s.grid x y).level → handleTileClick s tool x y = s) :=
  ⟨click_level_bounds s tool x y,
   fun htool hempty => click_level_monotone s tool x y htool hempty,
   fun htool hmatch hmax => click_max_level_rejected s tool x y htool hmatch hmax⟩

/-- Counterexample to claim C6 as stated: levels are not monotonically
non-decreasing under all operations — demolishing the level-2 Park at (1,1)
of `parkCity` resets that tile's level from 2 to 1. -/
theorem level_monotone_counterexample :
    (tileAt parkCity 1 1).level = 2
    ∧ 5 ≤ INITIAL_STATS.money
    ∧ (tileAt (handleTileClick ⟨parkCity, INITIAL_STATS, []⟩
        BuildingType.None 1 1).grid 1 1).level = 1 := by
  decide

lemma costMoney_pos (t : BuildingType) (h : t ≠ BuildingType.None) :
    0 < (BUILDINGS t).costMoney := by
  cases t
  · exact absurd rfl h
  all_goals norm_num [BUILDINGS]

lemma buildOk_of_branches (s : ClickState) (tool : BuildingType) (x y : Nat)
    (h1 : x < GRID_SIZE ∧ y < GRID_SIZE)
    (h2 : ¬(tileAt s.grid x y).explored = false)
    (h4 : (tileAt s.grid x y).buildingType = BuildingType.None)
    (h5 : ¬((tileAt s.grid x y).resourceType = ResourceType.Water
      ∧ tool ≠ BuildingType.Port ∧ tool ≠ BuildingType.Road))
    (h6 : ¬(tool = BuildingType.Port ∧ (tileAt s.grid x y).resourceType ≠ ResourceType.Water))
    (h7 : (BUILDINGS tool).costMoney ≤ s.stats.money
      ∧ (BUILDINGS tool).costWood ≤ s.stats.wood
      ∧ (BUILDINGS tool).costStone ≤ s.stats.stone) :
    buildOk s tool x y := by
  refine ⟨h1.1, h1.2, ?_, h4, ?_, ?_, h7.1, h7.2.1, h7.2.2⟩
  · revert h2
    cases (tileAt s.grid x y).explored <;> simp
  · intro hw
    rcases Decidable.em (tool = BuildingType.Port) with hp | hp
    · exact Or.inl hp
    · rcases Decidable.em (tool = BuildingType.Road) with hr | hr
      · exact Or.inr hr
      · exact absurd ⟨hw, hp, hr⟩ h5
  · intro hp
    by_contra hw
    exact h6 ⟨hp, hw⟩

/-- On a click that is not routed to the upgrade branch (the target tile does
not carry the selected tool's building), a non-bulldozer click is exactly the
build branch: the guarded success record when `buildOk` holds, a no-op
otherwise. -/
lemma click_build_eq (s : ClickState) (tool : BuildingType) (x y : Nat)
    (htool : tool ≠ BuildingType.None)
    (hnu : ¬(x < GRID_SIZE ∧ y < GRID_SIZE ∧ (tileAt s.grid x y).buildingType = tool)) :
    handleTileClick s tool x y =
      if buildOk s tool x y then
        { grid := recomputeLV (setTile s.grid x y
            { tileAt s.grid x y with buildingType := tool, level := 1 }) x y blockRange,
          stats := { s.stats with
            money := s.stats.money - (BUILDINGS tool).costMoney,
            wood := s.stats.wood - (BUILDINGS tool).costWood,
            stone := s.stats.stone - (BUILDINGS tool).costStone },
          boats := if tool = BuildingType.Port then s.boats ++ [⟨x, y⟩] else s.boats }
      else s := by
  by_cases hbnd : x < GRID_SIZE ∧ y < GRID_SIZE
  · have hb3 : ¬(tool ≠ BuildingType.None ∧ (tileAt s.grid x y).buildingType = tool) :=
      fun hc => hnu ⟨hbnd.1, hbnd.2, hc.2⟩
    by_cases hok : buildOk s tool x y
    · rw [if_pos hok]
      obtain ⟨hx, hy, hexp, hnone, hwater, hport, hm, hw, hs⟩ := hok
      simp only [handleTileClick]
      rw [if_pos hbnd,
        if_neg (show ¬(tileAt s.grid x y).explored = false by
          rw [hexp]; exact fun h => Bool.noConfusion h),
        if_neg hb3,
        if_neg htool,
        if_pos hnone,
        if_neg (show ¬((tileAt s.grid x y).resourceType = ResourceType.Water
            ∧ tool ≠ BuildingType.Port ∧ tool ≠ BuildingType.Road) from
          fun hc => (hwater hc.1).elim (fun hp => hc.2.1 hp) (fun hr => hc.2.2 hr)),
        if_neg (show ¬(tool = BuildingType.Port
            ∧ (tileAt s.grid x y).resourceType ≠ ResourceType.Water) from
          fun hc => hc.2 (hport hc.1)),
        if_pos ⟨hm, hw, hs⟩]
    · rw [if_neg hok]
      simp only [handleTileClick]
      rw [if_pos hbnd]
      split_ifs with h2 h4 h5 h6 h7 h8
      any_goals rfl
      all_goals exact absurd (buildOk_of_branches s tool x y hbnd h2 h4 h5 h6 h7) hok
  · rw [if_neg (fun hc => hbnd ⟨hc.1, hc.2.1⟩)]
    simp only [handleTileClick]
    rw [if_neg hbnd]

/-- Claim C3: with a building tool selected and the click not routed to the
upgrade branch, the command changes the state exactly when `buildOk` holds
(coordinates in bounds, tile explored, no building, the water rule, all
three costs affordable); on success it debits the three costs, sets the
tile's building to the tool at level 1, refreshes land values over the
in-bounds part of the 9-cell block (computed on the grid with the new
building), appends exactly one explorer boat at the tile when the tool is
Port and none otherwise, and on any rejection it is a no-op on grid, ledger
and boats. -/
theorem build_characterization (s : ClickState) (tool : BuildingType) (x y : Nat)
    (htool : tool ≠ BuildingType.None)
    (hnu : ¬(x < GRID_SIZE ∧ y < GRID_SIZE ∧ (tileAt s.grid x y).buildingType = tool)) :
    (handleTileClick s tool x y ≠ s ↔ buildOk s tool x y)
    ∧ (buildOk s tool x y →
        (handleTileClick s tool x y).stats = { s.stats with
            money := s.stats.money - (BUILDINGS tool).costMoney,
            wood := s.stats.wood - (BUILDINGS tool).costWood,
            stone := s.stats.stone - (BUILDINGS tool).costStone }
        ∧ (handleTileClick s tool x y).boats
            = (if tool = BuildingType.Port then s.boats ++ [⟨x, y⟩] else s.boats)
        ∧ ∀ a b, tileAt (handleTileClick s tool x y).grid a b
            = (if lvTarget x y blockRange a b
               then { tileAt (setTile s.grid x y
                    { tileAt s.grid x y with buildingType := tool, level := 1 }) a b
                  with landValue := calculateLandValue (setTile s.grid x y
                    { tileAt s.grid x y with buildingType := tool, level := 1 }) a b }
               else tileAt (setTile s.grid x y
                  { tileAt s.grid x y with buildingType := tool, level := 1 }) a b))
    ∧ (¬ buildOk s tool x y → handleTileClick s tool x y = s) := by
  have heq := click_build_eq s tool x y htool hnu
  refine ⟨⟨fun hne => ?_, fun hok hEq => ?_⟩, fun hok => ?_, fun hnok => ?_⟩
  · by_contra hnok
    rw [heq, if_neg hnok] at hne
    exact hne rfl
  · rw [heq, if_pos hok] at hEq
    have hm := congrArg (fun c => c.stats.money) hEq
    dsimp only at hm
    have := costMoney_pos tool htool
    omega
  · rw [heq, if_pos hok]
    exact ⟨rfl, rfl, fun a b => tileAt_recomputeLV _ x y blockRange a b⟩
  · rw [heq, if_neg hnok]

/-- Witness for claim C3 at a concrete input: building a Business (Commercial)
tile at (4,4) of the flat grid from the initial ledger succeeds and debits
$100, 20 wood, 5 stone. -/
theorem build_characterization_witness :
    buildOk ⟨flatGrid, INITIAL_STATS, []⟩ BuildingType.Commercial 4 4
    ∧ (handleTileClick ⟨flatGrid, INITIAL_STATS, []⟩ BuildingType.Commercial 4 4).stats
        = { INITIAL_STATS with
            money := INITIAL_STATS.money - (BUILDINGS BuildingType.Commercial).costMoney,
            wood := INITIAL_STATS.wood - (BUILDINGS BuildingType.Commercial).costWood,
            stone := INITIAL_STATS.stone - (BUILDINGS BuildingType.Commercial).costStone }
    ∧ handleTileClick ⟨flatGrid, INITIAL_STATS, []⟩ BuildingType.Commercial 4 4
        ≠ ⟨flatGrid, INITIAL_STATS, []⟩ :=
  ⟨by decide,
   ((build_characterization ⟨flatGrid, INITIAL_STATS, []⟩ BuildingType.Commercial 4 4
      (by decide) (by decide)).2.1 (by decide)).1,
   (build_characterization ⟨flatGrid, INITIAL_STATS, []⟩ BuildingType.Commercial 4 4
      (by decide) (by decide)).1.mpr (by decide)⟩

lemma parkCity_level_bounds :
    ∀ a b, 1 ≤ (tileAt parkCity a b).level ∧ (tileAt parkCity a b).level ≤ 3 := by
  intro a b
  unfold parkCity
  rw [tileAt_setTile]
  split_ifs
  · exact ⟨by norm_num, by norm_num⟩
  · refine ⟨Nat.le_refl 1, ?_⟩
    show (1 : ℕ) ≤ 3
    norm_num

/-- Witness for the amended claim C6 at concrete inputs: level bounds after
an upgrade click on `parkCity`, monotonicity after a build click on the flat
grid, and the rejected upgrade at the level-3 Park of `parkCity3`. -/
theorem level_bounds_and_upgrade_monotone_witness :
    (1 ≤ (tileAt (handleTileClick ⟨parkCity, INITIAL_STATS, []⟩
        BuildingType.Park 1 1).grid 1 1).level
      ∧ (tileAt (handleTileClick ⟨parkCity, INITIAL_STATS, []⟩
        BuildingType.Park 1 1).grid 1 1).level ≤ 3)
    ∧ (tileAt flatGrid 3 3).level
        ≤ (tileAt (handleTileClick ⟨flatGrid, INITIAL_STATS, []⟩
            BuildingType.Farm 3 3).grid 3 3).level
    ∧ handleTileClick ⟨parkCity3, INITIAL_STATS, []⟩ BuildingType.Park 2 2
        = ⟨parkCity3, INITIAL_STATS, []⟩ :=
  ⟨(level_bounds_and_upgrade_monotone ⟨parkCity, INITIAL_STATS, []⟩
      BuildingType.Park 1 1).1 parkCity_level_bounds 1 1,
   (level_bounds_and_upgrade_monotone ⟨flatGrid, INITIAL_STATS, []⟩
      BuildingType.Farm 3 3).2.1 (by decide) (fun a b _ => rfl) 3 3,
   (level_bounds_and_upgrade_monotone ⟨parkCity3, INITIAL_STATS, []⟩
      BuildingType.Park 2 2).2.2 (by decide) (by decide) (by decide)⟩

/-- The upgrade branch of `handleTileClick` on a matching, explored,
in-bounds, below-max-level tile with affordable costs: debit the multiplied
costs and bump the tile's level — with no land-value recomputation. -/
lemma click_upgrade_eq (s : ClickState) (tool : BuildingType) (x y : Nat)
    (hb : x < GRID_SIZE ∧ y < GRID_SIZE)
    (hexp : (tileAt s.grid x y).explored = true)
    (htool : tool ≠ BuildingType.None)
    (hmatch : (tileAt s.grid x y).buildingType = tool)
    (hlvl : ¬ 3 ≤ (tileAt s.grid x y).level)
    (haff : ⌊((BUILDINGS tool).costMoney : ℚ)
        * UPGRADE_MULTIPLIER ^ (tileAt s.grid x y).level⌋ ≤ s.stats.money
      ∧ ⌊((BUILDINGS tool).costWood : ℚ)
        * UPGRADE_MULTIPLIER ^ (tileAt s.grid x y).level⌋ ≤ s.stats.wood
      ∧ ⌊((BUILDINGS tool).costStone : ℚ)
        * UPGRADE_MULTIPLIER ^ (tileAt s.grid x y).level⌋ ≤ s.stats.stone) :
    handleTileClick s tool x y =
      { grid := setTile s.grid x y
          { tileAt s.grid x y with level := (tileAt s.grid x y).level + 1 },
        stats := { s.stats with
          money := s.stats.money - ⌊((BUILDINGS tool).costMoney : ℚ)
            * UPGRADE_MULTIPLIER ^ (tileAt s.grid x y).level⌋,
          wood := s.stats.wood - ⌊((BUILDINGS tool).costWood : ℚ)
            * UPGRADE_MULTIPLIER ^ (tileAt s.grid x y).level⌋,
          stone := s.stats.stone - ⌊((BUILDINGS tool).costStone : ℚ)
            * UPGRADE_MULTIPLIER ^ (tileAt s.grid x y).level⌋ },
        boats := s.boats } := by
  simp only [handleTileClick]
  rw [if_pos hb,
    if_neg (show ¬(tileAt s.grid x y).explored = false by
      rw [hexp]; exact fun h => Bool.noConfusion h),
    if_pos ⟨htool, hmatch⟩,
    if_neg hlvl,
    if_pos haff]

lemma residentialCity_tile11 :
    tileAt residentialCity 1 1 = { flatTile with buildingType := BuildingType.Residential } := by
  unfold residentialCity
  rw [tileAt_setTile, if_pos ⟨rfl, rfl⟩]

lemma residentialCity_upgrade_eq :
    handleTileClick ⟨residentialCity, INITIAL_STATS, []⟩ BuildingType.Residential 1 1 =
      { grid := setTile residentialCity 1 1
          { flatTile with buildingType := BuildingType.Residential, level := 2 },
        stats := { INITIAL_STATS with money := 1425, wood := 85, stone := 50 },
        boats := [] } := by
  rw [click_upgrade_eq ⟨residentialCity, INITIAL_STATS, []⟩ BuildingType.Residential 1 1
    (by decide) (by decide) (by decide) (by decide) (by decide)
    (by rw [residentialCity_tile11]
        refine ⟨?_, ?_, ?_⟩ <;>
          norm_num [flatTile, BUILDINGS, UPGRADE_MULTIPLIER, INITIAL_STATS])]
  rw [residentialCity_tile11]
  norm_num [flatTile, BUILDINGS, UPGRADE_MULTIPLIER, INITIAL_STATS]

/-- Claim C2, refuted by the code at a concrete input (the upgrade branch of
`handleTileClick` carries the comment "Recalculate values logic omitted for
brevity but land value should update" and indeed skips the recomputation):
after upgrading the Residential at (1,1) of `residentialCity` to level 2, the
neighbor (2,1) still stores land value 1.0 while the pure function of its
current 8-neighborhood yields 1.1, so the recomputation invariant does not
hold after every upgrade (the demolish branch is similarly incomplete: it
refreshes only the 5-cell plus shape, leaving diagonal neighbors stale). -/
theorem landvalue_stale_after_upgrade :
    (tileAt (handleTileClick ⟨residentialCity, INITIAL_STATS, []⟩
        BuildingType.Residential 1 1).grid 1 1).level = 2
    ∧ (tileAt (handleTileClick ⟨residentialCity, INITIAL_STATS, []⟩
        BuildingType.Residential 1 1).grid 2 1).landValue = 1
    ∧ calculateLandValue (handleTileClick ⟨residentialCity, INITIAL_STATS, []⟩
        BuildingType.Residential 1 1).grid 2 1 = 11/10
    ∧ (tileAt (handleTileClick ⟨residentialCity, INITIAL_STATS, []⟩
        BuildingType.Residential 1 1).grid 2 1).landValue
      ≠ calculateLandValue (handleTileClick ⟨residentialCity, INITIAL_STATS, []⟩
        BuildingType.Residential 1 1).grid 2 1 := by
  rw [residentialCity_upgrade_eq]
  have hg : ∀ a b : Nat, tileAt (setTile residentialCity 1 1
      { flatTile with buildingType := BuildingType.Residential, level := 2 }) a b
      = if a = 1 ∧ b = 1 then { flatTile with buildingType := BuildingType.Residential, level := 2 }
        else flatTile := by
    intro a b
    unfold residentialCity
    rw [tileAt_setTile, tileAt_setTile]
    split_ifs with h1
    · rfl
    · rfl
  have hlv : (tileAt (setTile residentialCity 1 1
      { flatTile with buildingType := BuildingType.Residential, level := 2 }) 2 1).landValue
      = 1 := by
    rw [hg 2 1]
    norm_num [flatTile]
  have hcalc : calculateLandValue (setTile residentialCity 1 1
      { flatTile with buildingType := BuildingType.Residential, level := 2 }) 2 1 = 11/10 := by
    rw [calculateLandValue_eq_spec]
    unfold landValueSpec neighborOffsets
    have t0 : Int.toNat 0 = 0 := rfl
    have t1 : Int.toNat 1 = 1 := rfl
    have t2 : Int.toNat 2 = 2 := rfl
    have t3 : Int.toNat 3 = 3 := rfl
    simp only [List.map_cons, List.map_nil, List.sum_cons, List.sum_nil, hg]
    simp [inBounds, GRID_SIZE, lvContribution, flatTile, t0, t1, t2, t3]
    norm_num
  refine ⟨?_, hlv, hcalc, ?_⟩
  · rw [hg 1 1]
    norm_num
  · rw [hlv, hcalc]
    norm_num

/-- Claim C4: across every economy tick, the era is monotonically
non-decreasing, advances at most one step per tick in the fixed order
Primitive, Industrial, Modern, Future, and advances only when the next era's
population threshold is met by the updated population and its money
threshold by the ledger's money (the pre-income money of the tick). -/
theorem era_monotone_one_step (g : Grid) (st : CityStats) :
    eraRank st.era ≤ eraRank (economyTick g st).era
    ∧ eraRank (economyTick g st).era ≤ eraRank st.era + 1
    ∧ ((economyTick g st).era ≠ st.era →
        (economyTick g st).era = eraSucc st.era
        ∧ (ERA_THRESHOLDS (eraSucc st.era)).1 ≤ (economyTick g st).population
        ∧ (ERA_THRESHOLDS (eraSucc st.era)).2 ≤ st.money) := by
  show eraRank st.era ≤ eraRank (eraNextOf g st) ∧ eraRank (eraNextOf g st) ≤ eraRank st.era + 1
    ∧ (eraNextOf g st ≠ st.era → eraNextOf g st = eraSucc st.era
        ∧ (ERA_THRESHOLDS (eraSucc st.era)).1 ≤ newPopOf g st
        ∧ (ERA_THRESHOLDS (eraSucc st.era)).2 ≤ st.money)
  unfold eraNextOf
  split_ifs with h1 h2 h3
  · obtain ⟨he, hp, hm⟩ := h1
    rw [he]
    exact ⟨by decide, by decide, fun _ => ⟨rfl, hp, hm⟩⟩
  · obtain ⟨he, hp, hm⟩ := h2
    rw [he]
    exact ⟨by decide, by decide, fun _ => ⟨rfl, hp, hm⟩⟩
  · obtain ⟨he, hp, hm⟩ := h3
    rw [he]
    exact ⟨by decide, by decide, fun _ => ⟨rfl, hp, hm⟩⟩
  · exact ⟨Nat.le_refl _, Nat.le_succ _, fun hne => absurd rfl hne⟩

/-- Claim C5: on every economy tick, food consumption is
`ceil(population * 0.2)` (equivalently, the integer `(population + 4) / 5`);
the new food total is clamped at zero; when the pre-clamp food total would be
negative (the starving condition), a fixed population penalty of 5 replaces
the tick's growth; and the population is clamped to the residential cap
`(residentialCount * 50) * 3` and never goes below zero. -/
theorem tick_food_population_clamps (g : Grid) (st : CityStats) :
    foodConsumptionOf st.population = (st.population + 4) / 5
    ∧ (economyTick g st).food
        = max 0 (st.food + (sweepGrid g).dailyFood - foodConsumptionOf st.population)
    ∧ (economyTick g st).population
        = max 0 (min (((sweepGrid g).residentialCount * 50) * 3)
            (st.population
              + (if st.food + (sweepGrid g).dailyFood - foodConsumptionOf st.population < 0
                 then -5 else (sweepGrid g).dailyPopGrowth)))
    ∧ 0 ≤ (economyTick g st).population := by
  refine ⟨?_, ?_, ?_, ?_⟩
  · unfold foodConsumptionOf
    have h1 : (st.population : ℚ) * (2/10) = ((st.population : ℤ) : ℚ) / ((5 : ℕ) : ℚ) := by
      push_cast
      ring
    have h3 : -(((st.population : ℤ) : ℚ) / ((5 : ℕ) : ℚ))
        = ((-st.population : ℤ) : ℚ) / ((5 : ℕ) : ℚ) := by
      push_cast
      ring
    have h2 : (⌈((st.population : ℤ) : ℚ) / ((5 : ℕ) : ℚ)⌉ : ℤ)
        = -⌊((-st.population : ℤ) : ℚ) / ((5 : ℕ) : ℚ)⌋ := by
      rw [← h3, Int.floor_neg, neg_neg]
    rw [h1, h2, Rat.floor_intCast_div_natCast]
    omega
  · show (if newFoodRaw g st < 0 then 0 else newFoodRaw g st)
      = max 0 (st.food + (sweepGrid g).dailyFood - foodConsumptionOf st.population)
    unfold newFoodRaw
    split_ifs with h <;> omega
  · show newPopOf g st
      = max 0 (min (((sweepGrid g).residentialCount * 50) * 3)
          (st.population
            + (if st.food + (sweepGrid g).dailyFood - foodConsumptionOf st.population < 0
               then -5 else (sweepGrid g).dailyPopGrowth)))
    simp only [newPopOf, newFoodRaw]
    split_ifs <;> omega
  · show 0 ≤ newPopOf g st
    simp only [newPopOf]
    split_ifs <;> omega

lemma tickTileStep_none (acc : TickTotals) (t : TileData)
    (h : t.buildingType = BuildingType.None) : tickTileStep acc t = acc := by
  unfold tickTileStep
  rw [if_pos h]

lemma tick_row_skip (g : Grid) (y : Nat) (xs : List Nat) (acc : TickTotals)
    (h : ∀ x ∈ xs, (tileAt g x y).buildingType = BuildingType.None) :
    xs.foldl (fun acc x => tickTileStep acc (tileAt g x y)) acc = acc := by
  induction xs generalizing acc with
  | nil => rfl
  | cons x xs ih =>
      rw [List.foldl_cons, tickTileStep_none _ _ (h x (List.mem_cons_self x xs))]
      exact ih acc (fun x' hx' => h x' (List.mem_cons_of_mem _ hx'))

lemma tick_row_single (g : Grid) (y x0 : Nat) :
    ∀ (xs : List Nat), xs.Nodup → x0 ∈ xs →
    (∀ x ∈ xs, x ≠ x0 → (tileAt g x y).buildingType = BuildingType.None) →
    ∀ (acc : TickTotals),
    xs.foldl (fun acc x => tickTileStep acc (tileAt g x y)) acc
      = tickTileStep acc (tileAt g x0 y) := by
  intro xs
  induction xs with
  | nil => intro _ hmem; exact absurd hmem (List.not_mem_nil x0)
  | cons x xs ih =>
      intro hnd hmem hnone acc
      rw [List.foldl_cons]
      rcases Decidable.em (x = x0) with rfl | hne
      · have hnin : x ∉ xs := (List.nodup_cons.mp hnd).1
        exact tick_row_skip g y xs _ (fun x' hx' =>
          hnone x' (List.mem_cons_of_mem _ hx') (fun hx'0 => hnin (hx'0 ▸ hx')))
      · rw [tickTileStep_none _ _ (hnone x (List.mem_cons_self x xs) hne)]
        exact ih (List.nodup_cons.mp hnd).2
          ((List.mem_cons.mp hmem).resolve_left (fun hx => hne hx.symm))
          (fun x' hx' => hnone x' (List.mem_cons_of_mem _ hx')) acc

lemma tick_rows_skip (g : Grid) (ys : List Nat)
    (h : ∀ y ∈ ys, ∀ x, (tileAt g x y).buildingType = BuildingType.None) :
    ∀ (acc : TickTotals),
    ys.foldl (fun acc y =>
      (List.range GRID_SIZE).foldl (fun acc x => tickTileStep acc (tileAt g x y)) acc) acc
      = acc := by
  induction ys with
  | nil => intro _; rfl
  | cons y ys ih =>
      intro acc
      rw [List.foldl_cons,
        tick_row_skip g y _ acc (fun x _ => h y (List.mem_cons_self y ys) x)]
      exact ih (fun y' hy' x => h y' (List.mem_cons_of_mem _ hy') x) acc

/-- A sweep over a grid whose only built tile is at (x0, y0) reduces to the
single tile's contribution. -/
lemma sweepGrid_single (g : Grid) (x0 y0 : Nat)
    (hx0 : x0 < GRID_SIZE) (hy0 : y0 < GRID_SIZE)
    (h : ∀ a b, ¬(a = x0 ∧ b = y0) → (tileAt g a b).buildingType = BuildingType.None) :
    sweepGrid g = tickTileStep ⟨0, 0, 0, 0, 0, 0⟩ (tileAt g x0 y0) := by
  unfold sweepGrid
  have hrow : ∀ y, y ≠ y0 → ∀ (acc : TickTotals),
      (List.range GRID_SIZE).foldl (fun acc x => tickTileStep acc (tileAt g x y)) acc = acc :=
    fun y hy acc => tick_row_skip g y _ acc
      (fun x _ => h x y (fun hc => hy hc.2))
  have houter : ∀ (ys : List Nat), ys.Nodup → y0 ∈ ys → ∀ (acc : TickTotals),
      ys.foldl (fun acc y =>
        (List.range GRID_SIZE).foldl (fun acc x => tickTileStep acc (tileAt g x y)) acc) acc
      = tickTileStep acc (tileAt g x0 y0) := by
    intro ys
    induction ys with
    | nil => intro _ hmem; exact absurd hmem (List.not_mem_nil y0)
    | cons y ys ih =>
        intro hnd hmem acc
        rw [List.foldl_cons]
        rcases Decidable.em (y = y0) with rfl | hne
        · have hnin : y ∉ ys := (List.nodup_cons.mp hnd).1
          rw [tick_row_single g y x0 (List.range GRID_SIZE) (List.nodup_range _)
            (List.mem_range.mpr hx0)
            (fun x _ hxne => h x y (fun hc => hxne hc.1)) acc]
          exact tick_rows_skip g ys
            (fun y' hy' x => h x y' (fun hc => hnin (hc.2 ▸ hy'))) _
        · rw [hrow y hne acc]
          exact ih (List.nodup_cons.mp hnd).2
            ((List.mem_cons.mp hmem).resolve_left (fun hy => hne hy.symm)) acc
  exact houter (List.range GRID_SIZE) (List.nodup_range _) (List.mem_range.mpr hy0) _

lemma lvContribution_flat : lvContribution flatTile = 0 := by
  simp [lvContribution, flatTile]

/-- Land value of a tile all of whose (in-bounds) strict neighbors contribute
nothing is exactly 1. -/
lemma calculateLandValue_self_plain (g : Grid) (x y : Nat)
    (h : ∀ a b, ¬(a = x ∧ b = y) → lvContribution (tileAt g a b) = 0) :
    calculateLandValue g x y = 1 := by
  rw [calculateLandValue_eq_spec]
  unfold landValueSpec
  have hz : ∀ q ∈ (neighborOffsets.map (fun d =>
      if inBounds ((x : ℤ) + d.1) ∧ inBounds ((y : ℤ) + d.2) then
        lvContribution (tileAt g ((x : ℤ) + d.1).toNat ((y : ℤ) + d.2).toNat)
      else 0)), q = 0 := by
    intro q hq
    obtain ⟨d, hd, rfl⟩ := List.mem_map.mp hq
    split_ifs with hb
    · refine h _ _ ?_
      rintro ⟨ha, hbb⟩
      obtain ⟨⟨hb1, hb2⟩, hb3, hb4⟩ := hb
      have hd1 : d.1 = 0 := by omega
      have hd2 : d.2 = 0 := by omega
      fin_cases hd <;> simp_all
    · rfl
  rw [List.sum_eq_zero hz]
  norm_num

lemma resCity_tile22 :
    tileAt resCity 2 2 = { flatTile with buildingType := BuildingType.Residential } := by
  unfold resCity
  rw [tileAt_setTile, if_pos ⟨rfl, rfl⟩]

lemma resCity_sweep : sweepGrid resCity = ⟨5, 5, 0, 0, 0, 1⟩ := by
  have hside : ∀ a b, ¬(a = 2 ∧ b = 2) →
      (tileAt resCity a b).buildingType = BuildingType.None := by
    intro a b hab
    unfold resCity
    rw [tileAt_setTile, if_neg hab]
    rfl
  rw [sweepGrid_single resCity 2 2 (by norm_num [GRID_SIZE]) (by norm_num [GRID_SIZE]) hside,
    resCity_tile22]
  unfold tickTileStep
  simp [flatTile, BUILDINGS, TickTotals.mk.injEq]

lemma resCity_newPop : newPopOf resCity eraStats = 55 := by
  have hc : foodConsumptionOf eraStats.population = 10 := by
    show (⌈((50 : Int) : ℚ) * (2/10)⌉ : ℤ) = 10
    norm_num
  unfold newPopOf newFoodRaw
  rw [resCity_sweep, hc]
  norm_num [eraStats]

set_option maxRecDepth 4000 in
lemma resCity_era : (economyTick resCity eraStats).era = Era.Industrial := by
  show eraNextOf resCity eraStats = Era.Industrial
  unfold eraNextOf
  rw [resCity_newPop]
  norm_num [eraStats, ERA_THRESHOLDS]

lemma defenseBuilt_eq :
    defenseBuilt = ⟨recomputeLV (setTile flatGrid 5 5
      ({ flatTile with buildingType := BuildingType.Defense, level := 1 })) 5 5 blockRange,
      ⟨1350, 80, 10, 200, 0, 1, Era.Primitive⟩, []⟩ := by
  unfold defenseBuilt
  rw [click_build_eq ⟨flatGrid, INITIAL_STATS, []⟩ BuildingType.Defense 5 5
    (by decide) (by decide), if_pos (by decide)]
  have ht : ({ tileAt flatGrid 5 5 with
      buildingType := BuildingType.Defense, level := 1 } : TileData)
      = { flatTile with buildingType := BuildingType.Defense, level := 1 } := rfl
  rw [ht]
  have hs : ({ (⟨flatGrid, INITIAL_STATS, []⟩ : ClickState).stats with
      money := (⟨flatGrid, INITIAL_STATS, []⟩ : ClickState).stats.money
        - (BUILDINGS BuildingType.Defense).costMoney,
      wood := (⟨flatGrid, INITIAL_STATS, []⟩ : ClickState).stats.wood
        - (BUILDINGS BuildingType.Defense).costWood,
      stone := (⟨flatGrid, INITIAL_STATS, []⟩ : ClickState).stats.stone
        - (BUILDINGS BuildingType.Defense).costStone } : CityStats)
      = ⟨1350, 80, 10, 200, 0, 1, Era.Primitive⟩ := by decide
  rw [hs, if_neg (by decide : ¬BuildingType.Defense = BuildingType.Port)]

lemma defenseBuilt_tile_none (a b : Nat) (hab : ¬(a = 5 ∧ b = 5)) :
    (tileAt defenseBuilt.grid a b).buildingType = BuildingType.None := by
  rw [show defenseBuilt.grid = recomputeLV (setTile flatGrid 5 5
      { flatTile with buildingType := BuildingType.Defense, level := 1 }) 5 5 blockRange
    from by rw [defenseBuilt_eq]]
  rw [(sameStructure_recomputeLV _ 5 5 blockRange a b).1, tileAt_setTile, if_neg hab]
  rfl

lemma defenseBuilt_tile55 :
    tileAt defenseBuilt.grid 5 5
      = { flatTile with buildingType := BuildingType.Defense, level := 1, landValue := 1 } := by
  rw [show defenseBuilt.grid = recomputeLV (setTile flatGrid 5 5
      { flatTile with buildingType := BuildingType.Defense, level := 1 }) 5 5 blockRange
    from by rw [defenseBuilt_eq]]
  rw [tileAt_recomputeLV, if_pos (by decide)]
  have h55 : tileAt (setTile flatGrid 5 5
      { flatTile with buildingType := BuildingType.Defense, level := 1 }) 5 5
      = { flatTile with buildingType := BuildingType.Defense, level := 1 } := by
    rw [tileAt_setTile, if_pos ⟨rfl, rfl⟩]
  have hcalc : calculateLandValue (setTile flatGrid 5 5
      { flatTile with buildingType := BuildingType.Defense, level := 1 }) 5 5 = 1 := by
    refine calculateLandValue_self_plain _ 5 5 (fun a b hab => ?_)
    rw [tileAt_setTile, if_neg hab]
    exact lvContribution_flat
  rw [h55, hcalc]

lemma defense_sweep : sweepGrid defenseBuilt.grid = ⟨-5, 0, 0, 0, 0, 0⟩ := by
  rw [sweepGrid_single defenseBuilt.grid 5 5 (by norm_num [GRID_SIZE]) (by norm_num [GRID_SIZE])
      defenseBuilt_tile_none,
    defenseBuilt_tile55]
  unfold tickTileStep
  simp [flatTile, BUILDINGS, TickTotals.mk.injEq]

lemma defense_tick (m w s f d : Int) (hf : 0 ≤ f) :
    economyTick defenseBuilt.grid ⟨m, w, s, f, 0, d, Era.Primitive⟩
      = ⟨m - 5, w, s, f, 0, d + 1, Era.Primitive⟩ := by
  have hcons : foodConsumptionOf (0 : Int) = 0 := by
    show (⌈((0 : Int) : ℚ) * (2/10)⌉ : ℤ) = 0
    norm_num
  have hraw : newFoodRaw defenseBuilt.grid ⟨m, w, s, f, 0, d, Era.Primitive⟩ = f := by
    unfold newFoodRaw
    rw [defense_sweep]
    show f + 0 - foodConsumptionOf 0 = f
    rw [hcons]
    omega
  have hpop : newPopOf defenseBuilt.grid ⟨m, w, s, f, 0, d, Era.Primitive⟩ = 0 := by
    simp only [newPopOf]
    rw [defense_sweep, hraw, if_neg (by omega : ¬f < 0)]
    norm_num
  have hera : eraNextOf defenseBuilt.grid ⟨m, w, s, f, 0, d, Era.Primitive⟩ = Era.Primitive := by
    unfold eraNextOf
    rw [hpop]
    norm_num [ERA_THRESHOLDS]
  unfold economyTick
  rw [defense_sweep, hraw, hpop, hera, if_neg (by omega : ¬f < 0)]
  have hm : (⌊((m : Int) : ℚ) + (-5 : ℚ)⌋ : ℤ) = m - 5 := by
    rw [show ((m : Int) : ℚ) + (-5 : ℚ) = ((m - 5 : Int) : ℚ) by push_cast; ring,
      Int.floor_intCast]
  simp [CityStats.mk.injEq, hm]

lemma defenseCity_formula (n : Nat) :
    defenseCity n = ⟨1350 - 5 * (n : Int), 80, 10, 200, 0, 1 + (n : Int), Era.Primitive⟩ := by
  induction n with
  | zero =>
      show defenseBuilt.stats = _
      rw [show defenseBuilt.stats = (⟨1350, 80, 10, 200, 0, 1, Era.Primitive⟩ : CityStats)
        from by rw [defenseBuilt_eq]]
      norm_num
  | succ n ih =>
      show (fun st => economyTick defenseBuilt.grid st)^[n + 1] defenseBuilt.stats = _
      rw [Function.iterate_succ_apply']
      rw [show (fun st => economyTick defenseBuilt.grid st)^[n] defenseBuilt.stats
          = defenseCity n from rfl, ih,
        defense_tick _ _ _ _ _ (by norm_num)]
      simp only [CityStats.mk.injEq, and_true, true_and]
      constructor <;> push_cast <;> ring

/-- Counterexample to claim C7 as stated: money is not non-negative in every
reachable state. Starting from the initial ledger, building one Defense
tower (a legal, affordable transaction) and then letting the economy tick
run 271 times drives money to −5: the tick computes
`floor(money + dailyIncome)` with no lower clamp, and Defense maintenance
makes `dailyIncome` negative. -/
theorem money_negative_reachable :
    statsNonneg INITIAL_STATS
    ∧ statsNonneg defenseBuilt.stats
    ∧ statsNonneg (defenseCity 270)
    ∧ (defenseCity 271).money = -5 := by
  refine ⟨by decide, ?_, ?_, ?_⟩
  · rw [show defenseBuilt.stats = (⟨1350, 80, 10, 200, 0, 1, Era.Primitive⟩ : CityStats)
      from by rw [defenseBuilt_eq]]
    decide
  · rw [defenseCity_formula 270]
    unfold statsNonneg
    norm_num
  · rw [defenseCity_formula 271]
    norm_num

lemma tickTileStep_counters (acc : TickTotals) (t : TileData) :
    acc.dailyWood ≤ (tickTileStep acc t).dailyWood
    ∧ acc.dailyStone ≤ (tickTileStep acc t).dailyStone
    ∧ acc.dailyFood ≤ (tickTileStep acc t).dailyFood := by
  simp only [tickTileStep]
  split_ifs <;> (try dsimp only) <;> omega

lemma sweep_counters_nonneg (g : Grid) :
    0 ≤ (sweepGrid g).dailyWood ∧ 0 ≤ (sweepGrid g).dailyStone
    ∧ 0 ≤ (sweepGrid g).dailyFood := by
  have hrow : ∀ (xs : List Nat) (y : Nat) (acc : TickTotals),
      acc.dailyWood ≤ (xs.foldl (fun acc x => tickTileStep acc (tileAt g x y)) acc).dailyWood
      ∧ acc.dailyStone ≤ (xs.foldl (fun acc x => tickTileStep acc (tileAt g x y)) acc).dailyStone
      ∧ acc.dailyFood ≤ (xs.foldl (fun acc x => tickTileStep acc (tileAt g x y)) acc).dailyFood := by
    intro xs
    induction xs with
    | nil => exact fun y acc => ⟨le_refl _, le_refl _, le_refl _⟩
    | cons x xs ih =>
        intro y acc
        rw [List.foldl_cons]
        have h1 := tickTileStep_counters acc (tileAt g x y)
        have h2 := ih y (tickTileStep acc (tileAt g x y))
        exact ⟨h1.1.trans h2.1, h1.2.1.trans h2.2.1, h1.2.2.trans h2.2.2⟩
  have houter : ∀ (ys : List Nat) (acc : TickTotals),
      acc.dailyWood ≤ (ys.foldl (fun acc y =>
        (List.range GRID_SIZE).foldl (fun acc x => tickTileStep acc (tileAt g x y)) acc)
        acc).dailyWood
      ∧ acc.dailyStone ≤ (ys.foldl (fun acc y =>
        (List.range GRID_SIZE).foldl (fun acc x => tickTileStep acc (tileAt g x y)) acc)
        acc).dailyStone
      ∧ acc.dailyFood ≤ (ys.foldl (fun acc y =>
        (List.range GRID_SIZE).foldl (fun acc x => tickTileStep acc (tileAt g x y)) acc)
        acc).dailyFood := by
    intro ys
    induction ys with
    | nil => exact fun acc => ⟨le_refl _, le_refl _, le_refl _⟩
    | cons y ys ih =>
        intro acc
        rw [List.foldl_cons]
        have h1 := hrow (List.range GRID_SIZE) y acc
        have h2 := ih ((List.range GRID_SIZE).foldl
          (fun acc x => tickTileStep acc (tileAt g x y)) acc)
        exact ⟨h1.1.trans h2.1, h1.2.1.trans h2.2.1, h1.2.2.trans h2.2.2⟩
  exact houter (List.range GRID_SIZE) ⟨0, 0, 0, 0, 0, 0⟩

lemma revealStep_stats (gx gy : ℤ) (acc : Grid × CityStats × Bool) (d : Int × Int) :
    acc.2.1.money ≤ (revealStep gx gy acc d).2.1.money
    ∧ acc.2.1.wood ≤ (revealStep gx gy acc d).2.1.wood
    ∧ acc.2.1.stone ≤ (revealStep gx gy acc d).2.1.stone
    ∧ (revealStep gx gy acc d).2.1.food = acc.2.1.food
    ∧ (revealStep gx gy acc d).2.1.population = acc.2.1.population := by
  simp only [revealStep]
  split_ifs <;> (try dsimp only) <;> omega

lemma revealArea_stats (g : Grid) (st : CityStats) (gx gy : ℤ) :
    st.money ≤ (revealArea g st gx gy).stats.money
    ∧ st.wood ≤ (revealArea g st gx gy).stats.wood
    ∧ st.stone ≤ (revealArea g st gx gy).stats.stone
    ∧ (revealArea g st gx gy).stats.food = st.food
    ∧ (revealArea g st gx gy).stats.population = st.population := by
  have hfold : ∀ (l : List (Int × Int)) (acc : Grid × CityStats × Bool),
      acc.2.1.money ≤ (l.foldl (revealStep gx gy) acc).2.1.money
      ∧ acc.2.1.wood ≤ (l.foldl (revealStep gx gy) acc).2.1.wood
      ∧ acc.2.1.stone ≤ (l.foldl (revealStep gx gy) acc).2.1.stone
      ∧ (l.foldl (revealStep gx gy) acc).2.1.food = acc.2.1.food
      ∧ (l.foldl (revealStep gx gy) acc).2.1.population = acc.2.1.population := by
    intro l
    induction l with
    | nil => exact fun acc => ⟨le_refl _, le_refl _, le_refl _, rfl, rfl⟩
    | cons d l ih =>
        intro acc
        rw [List.foldl_cons]
        have h1 := revealStep_stats gx gy acc d
        have h2 := ih (revealStep gx gy acc d)
        exact ⟨h1.1.trans h2.1, h1.2.1.trans h2.2.1, h1.2.2.1.trans h2.2.2.1,
          h2.2.2.2.1.trans h1.2.2.2.1, h2.2.2.2.2.trans h1.2.2.2.2⟩
  have h := hfold revealRange (g, st, false)
  simp only [revealArea]
  dsimp only at h ⊢
  split_ifs with hfound <;> (try dsimp only) <;> omega

/-- Claim C7 (amended): all five ledger counters stay non-negative under
every click transaction; the economy tick keeps wood, stone, food and
population non-negative (food and population unconditionally, via the
source's clamps); enemy theft and explorer rewards preserve non-negativity
of all counters. Money, however, is NOT preserved non-negative by the
economy tick — see the reachable counterexample. -/
theorem ledger_nonneg_preservation :
    (∀ (s : ClickState) (tool : BuildingType) (x y : Nat),
      statsNonneg s.stats → statsNonneg (handleTileClick s tool x y).stats)
    ∧ (∀ (g : Grid) (st : CityStats), 0 ≤ st.wood → 0 ≤ (economyTick g st).wood)
    ∧ (∀ (g : Grid) (st : CityStats), 0 ≤ st.stone → 0 ≤ (economyTick g st).stone)
    ∧ (∀ (g : Grid) (st : CityStats),
        0 ≤ (economyTick g st).food ∧ 0 ≤ (economyTick g st).population)
    ∧ (∀ st : CityStats, statsNonneg st → statsNonneg (applySteal st))
    ∧ (∀ (g : Grid) (st : CityStats) (gx gy : ℤ),
        statsNonneg st → statsNonneg (revealArea g st gx gy).stats) := by
  refine ⟨?_, ?_, ?_, ?_, ?_, ?_⟩
  · intro s tool x y hnn
    unfold statsNonneg at hnn ⊢
    simp only [handleTileClick]
    split_ifs <;> (try dsimp only) <;> omega
  · intro g st hw
    show 0 ≤ st.wood + (sweepGrid g).dailyWood
    have := (sweep_counters_nonneg g).1
    omega
  · intro g st hs
    show 0 ≤ st.stone + (sweepGrid g).dailyStone
    have := (sweep_counters_nonneg g).2.1
    omega
  · intro g st
    constructor
    · show 0 ≤ (if newFoodRaw g st < 0 then 0 else newFoodRaw g st)
      split_ifs <;> omega
    · show 0 ≤ newPopOf g st
      simp only [newPopOf]
      split_ifs <;> omega
  · intro st hnn
    unfold statsNonneg at hnn ⊢
    unfold applySteal
    dsimp only
    omega
  · intro g st gx gy hnn
    unfold statsNonneg at hnn ⊢
    have h := revealArea_stats g st gx gy
    omega

/-- Witness for the amended claim C7 at concrete inputs: non-negativity is
preserved by a Road build on the flat grid, by one economy tick over the
flat grid, by one enemy theft, and by one reveal event, all from the
initial ledger. -/
theorem ledger_nonneg_preservation_witness :
    statsNonneg INITIAL_STATS
    ∧ statsNonneg (handleTileClick ⟨flatGrid, INITIAL_STATS, []⟩ BuildingType.Road 2 3).stats
    ∧ 0 ≤ (economyTick flatGrid INITIAL_STATS).wood
    ∧ 0 ≤ (economyTick flatGrid INITIAL_STATS).stone
    ∧ 0 ≤ (economyTick flatGrid INITIAL_STATS).food
    ∧ 0 ≤ (economyTick flatGrid INITIAL_STATS).population
    ∧ statsNonneg (applySteal INITIAL_STATS)
    ∧ statsNonneg (revealArea flatGrid INITIAL_STATS 3 3).stats :=
  ⟨by decide,
   ledger_nonneg_preservation.1 ⟨flatGrid, INITIAL_STATS, []⟩ BuildingType.Road 2 3 (by decide),
   ledger_nonneg_preservation.2.1 flatGrid INITIAL_STATS (by decide),
   ledger_nonneg_preservation.2.2.1 flatGrid INITIAL_STATS (by decide),
   (ledger_nonneg_preservation.2.2.2.1 flatGrid INITIAL_STATS).1,
   (ledger_nonneg_preservation.2.2.2.1 flatGrid INITIAL_STATS).2,
   ledger_nonneg_preservation.2.2.2.2.1 INITIAL_STATS (by decide),
   ledger_nonneg_preservation.2.2.2.2.2 flatGrid INITIAL_STATS 3 3 (by decide)⟩

/-- Witness for claim C4 at a concrete input: on `resCity` from `eraStats`
(population 50 growing to 55, money exactly 3000) the tick advances
Primitive to Industrial with both thresholds met. -/
theorem era_monotone_one_step_witness :
    (economyTick resCity eraStats).era ≠ eraStats.era
    ∧ (economyTick resCity eraStats).era = eraSucc eraStats.era
    ∧ (ERA_THRESHOLDS (eraSucc eraStats.era)).1 ≤ (economyTick resCity eraStats).population
    ∧ (ERA_THRESHOLDS (eraSucc eraStats.era)).2 ≤ eraStats.money :=
  ⟨by rw [resCity_era]; exact fun h => Era.noConfusion h,
   (era_monotone_one_step resCity eraStats).2.2
     (by rw [resCity_era]; exact fun h => Era.noConfusion h)⟩

lemma nearStep_none (e : Enemy) (g : Grid) (y x : Nat) (acc : (Int × Int) × ℚ)
    (h : (tileAt g x y).buildingType = BuildingType.None) :
    nearStep e g y acc x = acc := by
  unfold nearStep
  rw [if_neg]
  exact fun hc => hc.1 h

lemma near_row_skip (e : Enemy) (g : Grid) (y : Nat) (xs : List Nat)
    (h : ∀ x ∈ xs, (tileAt g x y).buildingType = BuildingType.None) :
    ∀ (acc : (Int × Int) × ℚ), xs.foldl (nearStep e g y) acc = acc := by
  induction xs with
  | nil => intro _; rfl
  | cons x xs ih =>
      intro acc
      rw [List.foldl_cons, nearStep_none e g y x acc (h x (List.mem_cons_self x xs))]
      exact ih (fun x' hx' => h x' (List.mem_cons_of_mem _ hx')) acc

lemma near_row_single (e : Enemy) (g : Grid) (y x0 : Nat) :
    ∀ (xs : List Nat), xs.Nodup → x0 ∈ xs →
    (∀ x ∈ xs, x ≠ x0 → (tileAt g x y).buildingType = BuildingType.None) →
    ∀ (acc : (Int × Int) × ℚ),
    xs.foldl (nearStep e g y) acc = nearStep e g y acc x0 := by
  intro xs
  induction xs with
  | nil => intro _ hmem; exact absurd hmem (List.not_mem_nil x0)
  | cons x xs ih =>
      intro hnd hmem hnone acc
      rw [List.foldl_cons]
      rcases Decidable.em (x = x0) with rfl | hne
      · have hnin : x ∉ xs := (List.nodup_cons.mp hnd).1
        exact near_row_skip e g y xs (fun x' hx' =>
          hnone x' (List.mem_cons_of_mem _ hx') (fun hx'0 => hnin (hx'0 ▸ hx'))) _
      · rw [nearStep_none e g y x acc (hnone x (List.mem_cons_self x xs) hne)]
        exact ih (List.nodup_cons.mp hnd).2
          ((List.mem_cons.mp hmem).resolve_left (fun hx => hne hx.symm))
          (fun x' hx' => hnone x' (List.mem_cons_of_mem _ hx')) acc

lemma near_rows_skip (e : Enemy) (g : Grid) (ys : List Nat)
    (h : ∀ y ∈ ys, ∀ x, (tileAt g x y).buildingType = BuildingType.None) :
    ∀ (acc : (Int × Int) × ℚ),
    ys.foldl (fun acc y => (List.range GRID_SIZE).foldl (nearStep e g y) acc) acc
      = acc := by
  induction ys with
  | nil => intro _; rfl
  | cons y ys ih =>
      intro acc
      rw [List.foldl_cons,
        near_row_skip e g y _ (fun x _ => h y (List.mem_cons_self y ys) x) acc]
      exact ih (fun y' hy' x => h y' (List.mem_cons_of_mem _ hy') x) acc

/-- On a grid whose only built tile is at (x0, y0) (and that building is not
a Road), the nearest-building scan returns that tile and the enemy's
Manhattan distance to it, provided the distance beats the 999 initial
accumulator. -/
lemma findNearestBuilding_single (g : Grid) (x0 y0 : Nat) (e : Enemy)
    (hx0 : x0 < GRID_SIZE) (hy0 : y0 < GRID_SIZE)
    (h : ∀ a b, ¬(a = x0 ∧ b = y0) → (tileAt g a b).buildingType = BuildingType.None)
    (hb : (tileAt g x0 y0).buildingType ≠ BuildingType.None
        ∧ (tileAt g x0 y0).buildingType ≠ BuildingType.Road)
    (hd : |e.x - (x0 : ℚ)| + |e.y - (y0 : ℚ)| < 999) :
    findNearestBuilding g e
      = (((x0 : ℤ), (y0 : ℤ)), |e.x - (x0 : ℚ)| + |e.y - (y0 : ℚ)|) := by
  unfold findNearestBuilding
  have hrow : ∀ y, y ≠ y0 → ∀ (acc : (Int × Int) × ℚ),
      (List.range GRID_SIZE).foldl (nearStep e g y) acc = acc :=
    fun y hy acc => near_row_skip e g y _ (fun x _ => h x y (fun hc => hy hc.2)) acc
  have houter : ∀ (ys : List Nat), ys.Nodup → y0 ∈ ys → ∀ (acc : (Int × Int) × ℚ),
      ys.foldl (fun acc y => (List.range GRID_SIZE).foldl (nearStep e g y) acc) acc
        = nearStep e g y0 acc x0 := by
    intro ys
    induction ys with
    | nil => intro _ hmem; exact absurd hmem (List.not_mem_nil y0)
    | cons y ys ih =>
        intro hnd hmem acc
        rw [List.foldl_cons]
        rcases Decidable.em (y = y0) with rfl | hne
        · have hnin : y ∉ ys := (List.nodup_cons.mp hnd).1
          rw [near_row_single e g y x0 (List.range GRID_SIZE) (List.nodup_range _)
            (List.mem_range.mpr hx0)
            (fun x _ hxne => h x y (fun hc => hxne hc.1)) acc]
          exact near_rows_skip e g ys
            (fun y' hy' x => h x y' (fun hc => hnin (hc.2 ▸ hy'))) _
        · rw [hrow y hne acc]
          exact ih (List.nodup_cons.mp hnd).2
            ((List.mem_cons.mp hmem).resolve_left (fun hy => hne hy.symm)) acc
  rw [houter (List.range GRID_SIZE) (List.nodup_range _) (List.mem_range.mpr hy0) _]
  unfold nearStep
  rw [if_pos hb]
  dsimp only
  rw [if_pos hd]

/-- Turret damage only ever subtracts from an enemy's hp: the 3×3 damage
fold is bounded by its starting value. -/
lemma turret_foldl_le (g : Grid) (gx gy : ℤ) :
    ∀ (l : List (Int × Int)) (hp : Int),
    l.foldl (fun hp d =>
      let tx := gx + d.1
      let ty := gy + d.2
      if inBounds tx ∧ inBounds ty then
        if (tileAt g tx.toNat ty.toNat).buildingType = BuildingType.Defense then
          hp - 5 * ((tileAt g tx.toNat ty.toNat).level : Int)
        else hp
      else hp) hp ≤ hp := by
  intro l
  induction l with
  | nil => intro hp; exact le_refl hp
  | cons d l ih =>
      intro hp
      rw [List.foldl_cons]
      refine le_trans (ih _) ?_
      dsimp only
      split_ifs <;> omega

/-- One enemy-tick update never increases an enemy's hp. -/
lemma stepEnemy_hp (g : Grid) (e : Enemy) : (stepEnemy g e).hp ≤ e.hp := by
  unfold stepEnemy
  dsimp only
  split_ifs <;> (try dsimp only) <;>
    first
      | exact le_refl e.hp
      | exact turret_foldl_le g _ _ turretRange e.hp

lemma guardPost_none (a b : Nat) (hab : ¬(a = 0 ∧ b = 0)) :
    (tileAt guardPost a b).buildingType = BuildingType.None := by
  unfold guardPost
  rw [tileAt_setTile, if_neg hab]
  rfl

lemma guardPost_tile00 :
    tileAt guardPost 0 0 = { flatTile with buildingType := BuildingType.Defense } := by
  unfold guardPost
  rw [tileAt_setTile, if_pos ⟨rfl, rfl⟩]

/-- The nearest-building scan of `guardPost` from the turret tile itself:
target (0, 0) at distance 0. -/
lemma raider_target : findNearestBuilding guardPost raider = ((0, 0), 0) := by
  have h := findNearestBuilding_single guardPost 0 0 raider
    (by norm_num [GRID_SIZE]) (by norm_num [GRID_SIZE]) guardPost_none
    (by rw [guardPost_tile00]; exact ⟨fun hc => BuildingType.noConfusion hc,
      fun hc => BuildingType.noConfusion hc⟩)
    (by norm_num [raider])
  rw [h]
  norm_num [raider, Prod.ext_iff]

lemma jsRound_zero : jsRound 0 = 0 := by
  unfold jsRound
  norm_num

/-- Concrete evaluation of the turret-damage fold for an enemy standing on
the turret tile of `guardPost`: 5 hp minus the single level-1 turret's
5 damage. -/
lemma guardPost_turret_fold :
    turretRange.foldl (fun hp d =>
      if inBounds ((0:ℤ) + d.1) ∧ inBounds ((0:ℤ) + d.2) then
        if (tileAt guardPost ((0:ℤ) + d.1).toNat ((0:ℤ) + d.2).toNat).buildingType
            = BuildingType.Defense then
          hp - 5 * ((tileAt guardPost ((0:ℤ) + d.1).toNat ((0:ℤ) + d.2).toNat).level : Int)
        else hp
      else hp) 5 = 0 := by
  decide

/-- Full evaluation of one enemy-tick update of `raider` on `guardPost`: the
turret drops its hp to exactly 0, and the attack branch is still taken
(cooldown set to 5). -/
lemma raider_step :
    stepEnemy guardPost raider = { raider with hp := 0, attackCooldown := 5 } := by
  unfold stepEnemy
  rw [raider_target]
  simp only [raider]
  rw [if_neg (show ¬((0:ℤ) = -1) by decide),
    if_neg (show ¬((1:ℚ)/2 < 0) by norm_num)]
  rw [jsRound_zero, guardPost_turret_fold,
    if_pos (show (0:ℚ) < 1 ∧ (0:ℤ) ≤ 0 from ⟨by norm_num, by decide⟩)]

/-- Claim C8 (amended): hostile hp is monotonically non-increasing under the
enemy tick; every agent of the post-tick active set has positive hp and is
the update of a pre-tick agent with at least its hp; an agent whose hp fell
to 0 or below during the tick is absent from the post-tick set; and the
hp-filter of a manual click likewise leaves only positive-hp agents, none
with more hp than before. (A dead agent can still steal in the tick in which
it dies — see the counterexample.) -/
theorem hostile_hp_monotone_removal (g : Grid) (es : List Enemy) (st : CityStats)
    (rolls : List Bool) (n : Nat) :
    (∀ e ∈ es, (stepEnemy g e).hp ≤ e.hp)
    ∧ (∀ e ∈ (enemyTick g es st rolls).1,
        0 < e.hp ∧ ∃ e0 ∈ es, e = stepEnemy g e0 ∧ e.hp ≤ e0.hp)
    ∧ (∀ e0 ∈ es, (stepEnemy g e0).hp ≤ 0 →
        stepEnemy g e0 ∉ (enemyTick g es st rolls).1)
    ∧ (∀ e ∈ handleEnemyClick es n, 0 < e.hp ∧ ∃ e0 ∈ es, e.hp ≤ e0.hp) := by
  refine ⟨fun e _ => stepEnemy_hp g e, ?_, ?_, ?_⟩
  · intro e he
    unfold enemyTick at he
    rw [List.mem_filter] at he
    obtain ⟨hmap, hpos⟩ := he
    obtain ⟨e0, he0, heq⟩ := List.mem_map.mp hmap
    exact ⟨of_decide_eq_true hpos, e0, he0, heq.symm, heq ▸ stepEnemy_hp g e0⟩
  · intro e0 _ hdead hmem
    unfold enemyTick at hmem
    rw [List.mem_filter] at hmem
    have hpos := of_decide_eq_true hmem.2
    omega
  · intro e he
    unfold handleEnemyClick at he
    rw [List.mem_filter] at he
    obtain ⟨hmap, hpos⟩ := he
    obtain ⟨e0, he0, heq⟩ := List.mem_map.mp hmap
    refine ⟨of_decide_eq_true hpos, e0, he0, ?_⟩
    rw [← heq]
    split_ifs <;> (try dsimp only) <;> omega

/-- Counterexample to claim C8 as stated: a dead agent can steal in the tick
in which it dies. On `guardPost`, the turret drops `raider`'s hp to exactly 0
and the agent is removed from the active set at the end of the tick; yet the
same tick's attack branch fires (the source checks distance and cooldown but
never the post-damage hp before the steal roll), debiting the ledger by 10
money and 5 food. -/
theorem dead_enemy_steals :
    (stepEnemy guardPost raider).hp ≤ 0
    ∧ (enemyTick guardPost [raider] INITIAL_STATS [true]).1 = []
    ∧ (enemyTick guardPost [raider] INITIAL_STATS [true]).2.money
        = INITIAL_STATS.money - 10
    ∧ (enemyTick guardPost [raider] INITIAL_STATS [true]).2.food
        = INITIAL_STATS.food - 5 := by
  have hatk : enemyAttacks guardPost raider := by
    unfold enemyAttacks
    rw [raider_target]
    exact ⟨by decide, by norm_num, by decide⟩
  have hst : (enemyTick guardPost [raider] INITIAL_STATS [true]).2
      = applySteal INITIAL_STATS := by
    unfold enemyTick
    dsimp only
    rw [show List.zip [raider] [true] = [(raider, true)] from rfl,
      List.foldl_cons, List.foldl_nil, if_pos ⟨hatk, rfl⟩]
  refine ⟨by rw [raider_step], ?_, ?_, ?_⟩
  · unfold enemyTick
    dsimp only
    rw [List.map_cons, List.map_nil, raider_step]
    decide
  · rw [hst]
    unfold applySteal INITIAL_STATS
    dsimp only
    omega
  · rw [hst]
    unfold applySteal INITIAL_STATS
    dsimp only
    omega

/-- Witness for the amended claim C8 at concrete inputs: the hp bound for
`raider` on `guardPost`, its absence from the post-tick active set once its
hp reaches 0, and the filter facts of a manual click on a surviving agent. -/
theorem hostile_hp_monotone_removal_witness :
    (stepEnemy guardPost raider).hp ≤ raider.hp
    ∧ stepEnemy guardPost raider ∉ (enemyTick guardPost [raider] INITIAL_STATS [true]).1
    ∧ (0 < bruiser.hp ∧ ∃ e0 ∈ [bruiser], bruiser.hp ≤ e0.hp) := by
  have h := hostile_hp_monotone_removal guardPost [raider] INITIAL_STATS [true] 7
  have h2 := hostile_hp_monotone_removal guardPost [bruiser] INITIAL_STATS [] 7
  exact ⟨h.1 raider (List.mem_singleton_self raider),
    h.2.2.1 raider (List.mem_singleton_self raider) (by rw [raider_step]),
    h2.2.2.2 bruiser (by decide)⟩

/-- One reveal-loop step never touches a tile that is already explored. -/
lemma revealStep_preserves (gx gy : ℤ) (acc : Grid × CityStats × Bool) (d : Int × Int)
    (a b : Nat) (h : (tileAt acc.1 a b).explored = true) :
    tileAt (revealStep gx gy acc d).1 a b = tileAt acc.1 a b := by
  unfold revealStep
  dsimp only
  split_ifs with h1 h2 h3 <;> try rfl
  all_goals
    rw [tileAt_setTile]
    split_ifs with hc
    · rw [hc.1, hc.2] at h
      rw [h] at h2
      exact absurd h2 (by decide)
    · rfl

lemma revealFold_preserves (gx gy : ℤ) (l : List (Int × Int)) :
    ∀ (acc : Grid × CityStats × Bool) (a b : Nat),
    (tileAt acc.1 a b).explored = true →
    tileAt ((l.foldl (revealStep gx gy) acc).1) a b = tileAt acc.1 a b := by
  induction l with
  | nil => intro acc a b _; rfl
  | cons d l ih =>
      intro acc a b h
      rw [List.foldl_cons,
        ih (revealStep gx gy acc d) a b (by rw [revealStep_preserves gx gy acc d a b h]; exact h)]
      exact revealStep_preserves gx gy acc d a b h

/-- After the reveal loop, every in-bounds tile of the processed offset list
is explored. -/
lemma revealFold_explores (gx gy : ℤ) (l : List (Int × Int)) :
    ∀ (acc : Grid × CityStats × Bool) (d : Int × Int), d ∈ l →
    inBounds (gx + d.1) ∧ inBounds (gy + d.2) →
    (tileAt ((l.foldl (revealStep gx gy) acc).1) (gx + d.1).toNat (gy + d.2).toNat).explored
      = true := by
  induction l with
  | nil => intro _ _ hmem; exact absurd hmem (List.not_mem_nil _)
  | cons d0 l ih =>
      intro acc d hmem hb
      rw [List.foldl_cons]
      rcases List.mem_cons.mp hmem with rfl | hmem'
      · have hexp : (tileAt ((revealStep gx gy acc d).1)
            (gx + d.1).toNat (gy + d.2).toNat).explored = true := by
          unfold revealStep
          rw [if_pos hb]
          dsimp only
          split_ifs with h2 <;>
            first
              | rw [tileAt_setTile, if_pos ⟨rfl, rfl⟩]
              | exact Bool.of_not_eq_false h2
        rw [revealFold_preserves gx gy l (revealStep gx gy acc d) _ _ hexp]
        exact hexp
      · exact ih (revealStep gx gy acc d0) d hmem' hb

/-- The reveal loop is the identity on a state whose in-bounds target tiles
are all already explored: no tile change, no reward, no found flag. -/
lemma revealFold_id (gx gy : ℤ) (l : List (Int × Int)) :
    ∀ (acc : Grid × CityStats × Bool),
    (∀ d ∈ l, inBounds (gx + d.1) ∧ inBounds (gy + d.2) →
      (tileAt acc.1 (gx + d.1).toNat (gy + d.2).toNat).explored = true) →
    l.foldl (revealStep gx gy) acc = acc := by
  induction l with
  | nil => intro acc _; rfl
  | cons d l ih =>
      intro acc h
      have hstep : revealStep gx gy acc d = acc := by
        unfold revealStep
        dsimp only
        split_ifs with h1 h2 <;> try rfl
        all_goals
          have hx := h d (List.mem_cons_self d l) h1
          rw [h2] at hx
          exact absurd hx (by decide)
      rw [List.foldl_cons, hstep]
      exact ih acc (fun d' hd' => h d' (List.mem_cons_of_mem _ hd'))

/-- A reveal event centered where every in-bounds target tile is already
explored is a complete no-op: same grid, untouched stats, `found = false`. -/
lemma revealArea_explored_grid (G : Grid) (st : CityStats) (gx gy : ℤ)
    (hexp : ∀ d ∈ revealRange, inBounds (gx + d.1) ∧ inBounds (gy + d.2) →
      (tileAt G (gx + d.1).toNat (gy + d.2).toNat).explored = true) :
    revealArea G st gx gy = ⟨G, st, false⟩ := by
  unfold revealArea
  rw [revealFold_id gx gy revealRange (G, st, false) hexp]
  rfl

/-- Claim C10: the explorer reveal is idempotent. A tile that is already
explored is left unchanged by a reveal event (so it can never earn a
duplicate wood/stone reward); a reveal event on a fully explored grid is a
complete no-op (no grid change, no reward of any kind, `found = false`); and
a second reveal event at the same center is always such a no-op: rewards are
only ever granted for tiles whose explored flag flips from false to true. -/
theorem reveal_idempotent (g : Grid) (st st2 : CityStats) (gx gy : ℤ) :
    (∀ a b : Nat, (tileAt g a b).explored = true →
      tileAt (revealArea g st gx gy).grid a b = tileAt g a b)
    ∧ ((∀ a b : Nat, (tileAt g a b).explored = true) →
      revealArea g st gx gy = ⟨g, st, false⟩)
    ∧ revealArea (revealArea g st gx gy).grid st2 gx gy
        = ⟨(revealArea g st gx gy).grid, st2, false⟩ := by
  refine ⟨?_, ?_, ?_⟩
  · intro a b h
    exact revealFold_preserves gx gy revealRange (g, st, false) a b h
  · intro hall
    exact revealArea_explored_grid g st gx gy (fun d _ _ => hall _ _)
  · refine revealArea_explored_grid _ st2 gx gy (fun d hd hb => ?_)
    exact revealFold_explores gx gy revealRange (g, st, false) d hd hb

/-- Witness for claim C10 at a concrete input: on the fully explored
`flatGrid`, a reveal event at (3, 3) changes nothing, grants nothing, and a
repeated event is the identity as well. -/
theorem reveal_idempotent_witness :
    tileAt (revealArea flatGrid INITIAL_STATS 3 3).grid 3 3 = tileAt flatGrid 3 3
    ∧ revealArea flatGrid INITIAL_STATS 3 3 = ⟨flatGrid, INITIAL_STATS, false⟩
    ∧ revealArea (revealArea flatGrid INITIAL_STATS 3 3).grid INITIAL_STATS 3 3
        = ⟨(revealArea flatGrid INITIAL_STATS 3 3).grid, INITIAL_STATS, false⟩ := by
  have h := reveal_idempotent flatGrid INITIAL_STATS INITIAL_STATS 3 3
  exact ⟨h.1 3 3 rfl, h.2.1 (fun a b => rfl), h.2.2⟩

end SimCity
